import Mathlib

/-!
# Bring-up and teardown of the Game Capture HD (`src/gchd/configure.cpp`)

A shallow embedding of `GCHD::configureDevice` and `GCHD::uninitDevice`.

* The procedure talks to the device through member functions whose bodies live in
  other files (`mailWrite`, `mailRead`, `read_config`, `scmd`, `doEnable`, ...).
  Every such call is recorded, with its arguments, as an `Op` in a chronological
  trace.
* The device is an oracle: the value a read returns is a function of the
  operations issued before it.
* Unbounded `while` / `do ... while` loops take a fuel argument (the number of
  iterations a loop may run); running out of it is the outcome `outOfFuel`.
-/

namespace GCHD

/-! ## Data model -/

/-- The session setting `InputSource` (read with `getInputSource`, written with
`setInputSource`). -/
inductive InputSource where
  | Unknown
  | HDMI
  | Component
  | Composite
  deriving DecidableEq

/-- Modelled from the spec: the enumeration `DeviceType` is declared in `gchd.hpp`;
the two hardware generations `configureDevice` distinguishes are RevisionA
(`GameCaptureHD`) and RevisionB (`GameCaptureHDNew`). -/
inductive DeviceType where
  | GameCaptureHD
  | GameCaptureHDNew
  deriving DecidableEq

/-- The two `runtime_error`s thrown in `configure.cpp`. -/
inductive Error where
  /-- The exception "Bad cable detection code." (line 166). -/
  | badCableDetectionCode
  /-- The exception "Unknown input source not currently allowed." (line 654). -/
  | unknownInputSource
  deriving DecidableEq

/-- Named constants of `gchd.hpp` used by `configure.cpp`. Their numeric values are
not part of `configure.cpp`; they are parameters of the model. -/
structure Consts where
  BANKSEL : Nat
  MAIL_SEND_ENABLE_REGISTER_STATE : Nat
  ENABLE_REGISTER : Nat
  SCMD_STATE_READBACK_REGISTER : Nat
  SCMD_STATE_CHANGE_COMPLETE : Nat
  SCMD_IDLE : Nat
  SCMD_INIT : Nat
  SCMD_RESET : Nat
  SCMD_STATE_START : Nat
  SCMD_STATE_NULL : Nat
  EB_FIRMWARE_PROCESSOR : Nat
  EB_ENCODER_ENABLE : Nat
  EB_ENCODER_TRIGGER : Nat
  EB_COMPOSITE_MUX : Nat
  EB_ANALOG_INPUT : Nat
  EB_ANALOG_MUX : Nat

/-- One call of a member function whose body is outside `configure.cpp`, with the
arguments it is called with. -/
inductive Op where
  | readVersion
  /-- The call `write_config<uint16_t>(reg, value)`. -/
  | write_config (reg value : Nat)
  /-- The call `read_config<uint16_t>(reg)`. -/
  | read_config (reg : Nat)
  /-- The call `write_config<uint16_t>(request, value, index, data)`. -/
  | write_config4 (request value index data : Nat)
  /-- The call `read_config(request, value, index, length)`. -/
  | read_configN (request value index length : Nat)
  /-- The call `read_config<uint16_t>(request, value, index)`. -/
  | read_config3 (request value index : Nat)
  | completeStateChange (currentState nextState : Nat)
  | interruptPend
  | dlfirm (file : String)
  | stateConfirmedScmd (command mode data : Nat)
  | scmd (command mode data : Nat)
  | mailWrite (port : Nat) (payload : List Nat)
  | mailRead (port length : Nat)
  | readDevice0x9DCD (index : Nat)
  | sendEnableState
  | readEnableState
  | clearEnableState
  | enableAnalogInput
  | doEnable (mask value : Nat)
  | setInputSource (src : InputSource)
  | transcoderDefaultsInitialize
  | transcoderSetup
  | transcoderOutputEnable (enable : Bool)
  | configureHDMI
  | stopStream (flag : Bool)
  deriving DecidableEq

/-- The device as seen by `configure.cpp`. Answers are functions of the operations
issued before the read that receives them.

`specialDetectMask` is the value the member `specialDetectMask_` holds when the
EncoderReady case reads it (line 134): the member is reset to `0xffff` on line 96
and updated from device registers by helpers that are not in `configure.cpp`. -/
structure Device where
  /-- The answer to `read_config<uint16_t>` and to `completeStateChange`. -/
  word : List Op → Nat
  /-- Byte number `i` of the answer to `mailRead`. -/
  byte : List Op → Nat → Nat
  specialDetectMask : Nat

/-- The session: the members of `GCHD` that `configure.cpp` reads. -/
structure Session where
  deviceType_ : DeviceType
  firmwareIdle_ : String
  firmwareEnc_ : String
  consts : Consts

/-- Mutable state: the trace of operations so far, `settings_`'s input source and
the two saved enable registers. External collaborators are opaque calls and do not
write the input source. -/
structure State where
  trace : List Op
  inputSource : InputSource
  savedEnableStateRegister_ : Nat
  savedEnableRegister_ : Nat
  deriving DecidableEq

/-- Outcome of running (a part of) the procedure from a state. -/
inductive Result (α : Type) where
  /-- Normal completion with a value. -/
  | ok (a : α) (s : State)
  /-- An exception was thrown in state `s`. -/
  | raised (e : Error) (s : State)
  /-- A polling loop used up its fuel in state `s`. -/
  | outOfFuel (s : State)
  deriving DecidableEq

/-- The state an outcome ends in. -/
def Result.state {α : Type} : Result α → State
  | .ok _ s => s
  | .raised _ s => s
  | .outOfFuel s => s

/-- A computation over the session state that may throw or run out of fuel. -/
def M (α : Type) : Type := State → Result α

/-- Sequencing: an exception or exhausted fuel ends the run. -/
def M.bind {α β : Type} (x : M α) (f : α → M β) : M β := fun s =>
  match x s with
  | .ok a s1 => f a s1
  | .raised e s1 => .raised e s1
  | .outOfFuel s1 => .outOfFuel s1

/-- Return a value without touching the state. -/
def M.pure {α : Type} (a : α) : M α := fun s => .ok a s

instance : Monad M where
  pure := M.pure
  bind := M.bind

/-- Record one operation. -/
def State.log (s : State) (op : Op) : State :=
  { s with trace := s.trace ++ [op] }

/-- Call a collaborator whose result, if any, is not used. -/
def call (op : Op) : M Unit := fun s => .ok () (s.log op)

/-- Call a sequence of collaborators whose results are not used, in order. -/
def callAll (ops : List Op) : M Unit := fun s =>
  .ok () { s with trace := s.trace ++ ops }

/-- The statement `throw runtime_error(...)`. -/
def raise (e : Error) : M Unit := fun s => .raised e s

/-- A polling loop gave up. -/
def giveUp {α : Type} : M α := fun s => .outOfFuel s

/-- The call `settings_->getInputSource()`. -/
def getInputSource : M InputSource := fun s => .ok s.inputSource s

/-- The call `settings_->setInputSource(src)`. -/
def setInputSource (src : InputSource) : M Unit := fun s =>
  .ok () { s.log (.setInputSource src) with inputSource := src }

/-- The call `read_config<uint16_t>(reg)`, a 16-bit value. -/
def read_config (dev : Device) (reg : Nat) : M Nat := fun s =>
  .ok (dev.word s.trace % 65536) (s.log (.read_config reg))

/-- The call `completeStateChange(currentState, nextState)`, a `uint16_t`. -/
def completeStateChange (dev : Device) (currentState nextState : Nat) : M Nat := fun s =>
  .ok (dev.word s.trace % 65536) (s.log (.completeStateChange currentState nextState))

/-- The call `mailRead(port, length)`: exactly `length` bytes. -/
def mailRead (dev : Device) (port length : Nat) : M (List Nat) := fun s =>
  .ok ((List.range length).map (fun i => dev.byte s.trace i % 256)) (s.log (.mailRead port length))

/-- The call `mailWrite(port, payload)`. -/
def mailWrite (port : Nat) (payload : List Nat) : M Unit := call (.mailWrite port payload)

/-- Modelled from the spec: `Utility::debyteify<uint32_t>(data, length)` is defined
outside `configure.cpp`; the spec has the bytes read back interpreted "as a big-endian
24-bit integer". -/
def debyteify (input : List Nat) (length : Nat) : Nat :=
  (input.take length).foldl (fun value b => value * 256 + b) 0

/-! ## Signal auto-detection (lines 134-168) -/

/-- The body of `if (getInputSource() == Unknown && firstTime)`, as a function of
the value of `specialDetectMask_`. -/
def autoDetect (specialDetectMask_ : Nat) : M Unit :=
  let analogSignalFound : Bool := ((specialDetectMask_ >>> 5) &&& 1) != 0
  let hdmiSignalFound : Bool := ((specialDetectMask_ >>> 3) &&& 1) != 0
  let cableType : Nat := specialDetectMask_ &&& 3
  let signalFound : Bool := if cableType = 0 then hdmiSignalFound else analogSignalFound
  if !signalFound then
    setInputSource InputSource.HDMI
  else
    match cableType with
    | 3 => setInputSource InputSource.Composite
    | 2 => setInputSource InputSource.Component
    | 0 => setInputSource InputSource.HDMI
    | _ => raise Error.badCableDetectionCode

/-- The reference rule of the specification for signal detection: the relevant flag
is bit 3 when the cable type is 0 and bit 5 otherwise; a clear flag gives HDMI, a
set flag maps cable types 0, 2, 3 to HDMI, Component, Composite. `none` stands for
the cable types the rule does not map. -/
def detectRule (mask : Nat) : Option InputSource :=
  let cableType := mask &&& 3
  let flag := if cableType = 0 then mask.testBit 3 else mask.testBit 5
  if flag = false then some InputSource.HDMI
  else if cableType = 0 then some InputSource.HDMI
  else if cableType = 2 then some InputSource.Component
  else if cableType = 3 then some InputSource.Composite
  else none

/-! ## Teardown (lines 660-698) -/

/-- The mailbox handshake issued after `scmd(SCMD_INIT, 0xa0, 0)` in bring-up
(lines 602-615), for the composite and the non-composite branch. -/
def postInitHandshake (composite : Bool) : List Op :=
  (if !composite then [Op.mailWrite 0x44 [0x06, 0x86]]
   else [Op.mailWrite 0x33 [0x89, 0x89, 0xfd], Op.mailRead 0x33 1]) ++
  [Op.mailWrite 0x33 [0x89, 0x89, 0xf8], Op.mailRead 0x33 1] ++
  (if !composite then [Op.mailWrite 0x44 [0x03, 0x2f]]
   else [Op.mailWrite 0x44 [0x03, 0x28]])

/-- The procedure `GCHD::uninitDevice`. -/
def uninitDevice (g : Session) (dev : Device) : M Unit := do
  let state := (← read_config dev g.consts.SCMD_STATE_READBACK_REGISTER) &&& 0x1f
  if state = g.consts.SCMD_STATE_START ∨ state = g.consts.SCMD_STATE_NULL then
    call (.stopStream true)
  if state ≠ 0x12 ∧ state ≠ 0x00 ∧ state ≠ 0x10 then
    mailWrite 0x44 [0x06, 0x86]
    mailWrite 0x33 [0x89, 0x89, 0xf8]
    let _ ← mailRead dev 0x33 1
    mailWrite 0x44 [0x03, 0x2f]
    call (.write_config g.consts.BANKSEL 0x0000)
    call .readEnableState
    let _ ← read_config dev g.consts.SCMD_STATE_READBACK_REGISTER
    call (.transcoderOutputEnable false)
    call (.scmd g.consts.SCMD_INIT 0xa0 0x0000)
    call .clearEnableState
    call (.doEnable g.consts.EB_FIRMWARE_PROCESSOR 0x0)
    call (.stateConfirmedScmd g.consts.SCMD_IDLE 0x00 0x0000)
    call (.stateConfirmedScmd g.consts.SCMD_RESET 0x01 0x0000)

/-! ## Bring-up: boot state and flash path (lines 16-94) -/

/-- The loop `do { ... } while (!changed)` of lines 54-58: poll
`SCMD_STATE_CHANGE_COMPLETE` until bit 2 is set. -/
def completionPoll (g : Session) (dev : Device) : Nat → M Unit
  | 0 => giveUp
  | fuel + 1 => do
    let completion ← read_config dev g.consts.SCMD_STATE_CHANGE_COMPLETE
    let changed : Bool := decide ((completion &&& 0x4) > 0)
    if !changed then completionPoll g dev fuel else pure ()

/-- Boot-state determination (lines 31-63): the value of the local `state`. -/
def bootState (g : Session) (dev : Device) (fuel : Nat) : M Nat :=
  match g.deviceType_ with
  | .GameCaptureHD => completeStateChange dev 0x0000 0x0000
  | .GameCaptureHDNew => do
    let state := (← read_config dev g.consts.SCMD_STATE_READBACK_REGISTER) &&& 0x1f
    if state = 0x0000 then
      call .interruptPend
      completionPoll g dev fuel
      call (.write_config g.consts.SCMD_STATE_CHANGE_COMPLETE 0x0004)
    pure state

/-- The assignment `savedEnableStateRegister_ = read_config<uint16_t>(...)`. -/
def saveEnableState (g : Session) (dev : Device) : M Unit := do
  let v ← read_config dev g.consts.MAIL_SEND_ENABLE_REGISTER_STATE
  fun s => .ok () { s with savedEnableStateRegister_ := v }

/-- The assignment `savedEnableRegister_ = read_config<uint16_t>(ENABLE_REGISTER)`. -/
def saveEnable (g : Session) (dev : Device) : M Unit := do
  let v ← read_config dev g.consts.ENABLE_REGISTER
  fun s => .ok () { s with savedEnableRegister_ := v }

/-- The eight 2-byte reads of lines 78-85. -/
def flashVerificationReads : List Op :=
  [Op.read_configN 0xbc 0x0000 0x0010 2, Op.read_configN 0xbc 0x0000 0x0012 2,
   Op.read_configN 0xbc 0x0000 0x0014 2, Op.read_configN 0xbc 0x0000 0x0016 2,
   Op.read_configN 0xbc 0x0000 0x0018 2, Op.read_configN 0xbc 0x0000 0x001a 2,
   Op.read_configN 0xbc 0x0000 0x001c 2, Op.read_configN 0xbc 0x0000 0x001e 2]

/-- Lines 64-94: the flash path or the already-booted path, then SCMD idle. -/
def flashOrReset (g : Session) (dev : Device) (state : Nat) : M Unit := do
  if state = 0x0000 then
    call (.dlfirm g.firmwareIdle_)
    call (.write_config4 0xbc 0x0900 0x0070 0x0004)
    saveEnableState g dev
    saveEnable g dev
    callAll flashVerificationReads
  else
    call (.stateConfirmedScmd g.consts.SCMD_RESET 0x00 0x0000)
  call (.stateConfirmedScmd g.consts.SCMD_IDLE 0x00 0x0000)

/-! ## Bring-up: the polling loops (lines 99-217) -/

/-- The case `0x27f97b` of the switch (lines 131-197), from the current value of
`firstTime`; returns the new values of `firstTime` and `loopDone`. -/
def encoderReadyCase (g : Session) (dev : Device) (firstTime : Bool) : M (Bool × Bool) := do
  if (← getInputSource) = InputSource.Unknown ∧ firstTime = true then
    autoDetect dev.specialDetectMask
  call .enableAnalogInput
  if firstTime then
    call .transcoderDefaultsInitialize
    call (.scmd g.consts.SCMD_INIT 0x00 0x0000)
    call (.dlfirm g.firmwareEnc_)
    call (.read_config3 0xbc 0x0000 0x0010)
    call (.read_config3 0xbc 0x0000 0x0012)
    call (.read_config3 0xbc 0x0000 0x0014)
    call (.read_config3 0xbc 0x0000 0x0016)
    pure (false, false)
  else
    pure (firstTime, true)

/-- One pass through the body of `while(!loopDone)` (lines 111-198), from the
current value of `firstTime`; returns the new values of `firstTime` and `loopDone`.
The switch has no default case. -/
def handshakeBody (g : Session) (dev : Device) (firstTime : Bool) : M (Bool × Bool) := do
  mailWrite 0x33 [0xab, 0xa9, 0x0f, 0xa4, 0x55]
  let input ← mailRead dev 0x33 3
  let deviceModeMagic := debyteify input 3
  if deviceModeMagic = 0x334455 then
    call .sendEnableState
    call .enableAnalogInput
    call (.doEnable g.consts.EB_FIRMWARE_PROCESSOR g.consts.EB_FIRMWARE_PROCESSOR)
    pure (firstTime, false)
  else if deviceModeMagic = 0x27f97b then
    encoderReadyCase g dev firstTime
  else
    pure (firstTime, false)

/-- The loop `while(!loopDone)` of lines 109-199. -/
def handshakeLoop (g : Session) (dev : Device) : Nat → Bool → M Unit
  | 0, _ => giveUp
  | fuel + 1, firstTime => do
    let (firstTime, loopDone) ← handshakeBody g dev firstTime
    if loopDone then pure () else handshakeLoop g dev fuel firstTime

/-- The loops of lines 200-206 and 587-593: probe with payload `..5b`, call
`enableAnalogInput`, until the magic number is `0x78e045`. -/
def activationWait (dev : Device) : Nat → M Unit
  | 0 => giveUp
  | fuel + 1 => do
    mailWrite 0x33 [0xab, 0xa9, 0x0f, 0xa4, 0x5b]
    let input ← mailRead dev 0x33 3
    call .enableAnalogInput
    let deviceModeMagic := debyteify input 3
    if deviceModeMagic ≠ 0x78e045 then activationWait dev fuel else pure ()

/-- The loop of lines 211-217: probe with payload `..55` until the magic number
is `0x27f97b`. -/
def reconfirmLoop (dev : Device) : Nat → M Unit
  | 0 => giveUp
  | fuel + 1 => do
    mailWrite 0x33 [0xab, 0xa9, 0x0f, 0xa4, 0x55]
    let input ← mailRead dev 0x33 3
    let deviceModeMagic := debyteify input 3
    if deviceModeMagic ≠ 0x27f97b then reconfirmLoop dev fuel else pure ()

/-! ## Bring-up: calibration replay (lines 219-586) -/

/-- The loop of lines 226-230: poll the acknowledgement byte until it is `0xf7`. -/
def ackPoll (dev : Device) : Nat → M Unit
  | 0 => giveUp
  | fuel + 1 => do
    mailWrite 0x33 [0x43, 0x23, 0x84]
    let input ← mailRead dev 0x33 1
    if input.headD 0 ≠ 0xf7 then ackPoll dev fuel else pure ()

/-- Lines 219-223: the first writes of calibration replay. -/
def calibrationHead : List Op :=
  [Op.mailWrite 0x33 [0x28, 0x28], Op.mailWrite 0x33 [0x29, 0x89, 0x5b], Op.mailRead 0x33 1,
   Op.mailWrite 0x33 [0xdd, 0xce, 0x3f, 0xb2], Op.mailRead 0x33 2]

/-- Lines 233-249. -/
def calibrationAfterTrigger : List Op :=
  [Op.mailWrite 0x33 [0x89, 0x89, 0xfb], Op.mailRead 0x33 1, Op.mailWrite 0x44 [0x02, 0xc9],
   Op.mailWrite 0x44 [0x14, 0xd2], Op.mailWrite 0x44 [0x3c, 0x6b], Op.mailWrite 0x33 [0x89, 0x89, 0xfa],
   Op.mailRead 0x33 1, Op.mailWrite 0x33 [0x89, 0x89, 0xca], Op.mailRead 0x33 1,
   Op.mailWrite 0x33 [0x89, 0x89, 0xe7], Op.mailRead 0x33 1, Op.mailWrite 0x44 [0x03, 0x2a],
   Op.mailWrite 0x44 [0x05, 0x89]]

/-- Lines 264-325: the shared endpoint-0x44 and 0x33 writes and the first endpoint-0x4e block. -/
def calibrationCommon44 : List Op :=
  [Op.mailWrite 0x44 [0x19, 0xde], Op.mailWrite 0x44 [0x1a, 0x87], Op.mailWrite 0x44 [0x1b, 0x88],
   Op.mailWrite 0x44 [0x29, 0x8b], Op.mailWrite 0x44 [0x2d, 0x8f], Op.mailWrite 0x44 [0x4c, 0x89],
   Op.mailWrite 0x44 [0x55, 0x88], Op.mailWrite 0x44 [0x6b, 0xae], Op.mailWrite 0x44 [0x6c, 0xbe],
   Op.mailWrite 0x44 [0x6d, 0x78], Op.mailWrite 0x44 [0x6e, 0xa0], Op.mailWrite 0x44 [0x06, 0x08],
   Op.mailWrite 0x44 [0x02, 0xc9], Op.mailWrite 0x44 [0x14, 0xd2], Op.mailWrite 0x44 [0x3c, 0x6b],
   Op.mailWrite 0x33 [0x89, 0x89, 0xfa], Op.mailRead 0x33 1, Op.mailWrite 0x44 [0x28, 0x88],
   Op.mailWrite 0x44 [0x10, 0x88], Op.mailWrite 0x44 [0x11, 0xd4], Op.mailWrite 0x44 [0x12, 0xd0],
   Op.mailWrite 0x44 [0x13, 0x08], Op.mailWrite 0x44 [0x14, 0x08], Op.mailWrite 0x44 [0x15, 0x88],
   Op.mailWrite 0x33 [0x94, 0x47, 0xf9], Op.mailWrite 0x33 [0x94, 0x40, 0xf3], Op.mailWrite 0x33 [0x94, 0x43, 0xb7],
   Op.mailWrite 0x33 [0x94, 0x4e, 0xb7], Op.mailWrite 0x33 [0x94, 0x4f, 0xb7], Op.mailWrite 0x33 [0x94, 0x48, 0xb7],
   Op.mailWrite 0x33 [0x94, 0x49, 0xb7], Op.mailWrite 0x33 [0x94, 0x58, 0x77], Op.mailWrite 0x33 [0x94, 0x40, 0xf1],
   Op.mailWrite 0x33 [0x94, 0x4d, 0xf5], Op.mailWrite 0x33 [0x94, 0x4a, 0xaf], Op.mailWrite 0x33 [0x94, 0x4b, 0xaf],
   Op.mailWrite 0x33 [0x94, 0x5c, 0xb7], Op.mailWrite 0x33 [0x94, 0x46, 0xd7], Op.readDevice0x9DCD 0x88,
   Op.mailWrite 0x4e [0xb7, 0xce], Op.mailWrite 0x4e [0x41, 0xa3], Op.mailWrite 0x4e [0xb8, 0xcc],
   Op.readDevice0x9DCD 0x3f, Op.mailWrite 0x4e [0x00, 0xcd], Op.mailWrite 0x4e [0x0f, 0xce],
   Op.mailWrite 0x4e [0x16, 0xfc], Op.mailWrite 0x4e [0x17, 0xcc], Op.mailWrite 0x4e [0x18, 0xcc],
   Op.mailWrite 0x4e [0x19, 0xcc], Op.mailWrite 0x4e [0x1a, 0x9c], Op.readDevice0x9DCD 0x15,
   Op.mailWrite 0x4e [0x2a, 0xcb], Op.readDevice0x9DCD 0x3f, Op.mailWrite 0x4e [0x00, 0xce],
   Op.mailWrite 0x4e [0x08, 0xcf], Op.readDevice0x9DCD 0x3f, Op.mailWrite 0x4e [0x00, 0xcd]]

/-- Lines 332-406: the rest of the endpoint-0x4e block and the endpoint-0x4c writes. -/
def calibrationAfterRevision : List Op :=
  [Op.mailWrite 0x4e [0x25, 0xcc], Op.mailWrite 0x4e [0x30, 0x4c], Op.mailWrite 0x4e [0x31, 0xcc],
   Op.mailWrite 0x4e [0x32, 0xcc], Op.mailWrite 0x4e [0x25, 0xcc], Op.mailWrite 0x4e [0x26, 0xcc],
   Op.mailWrite 0x4e [0x27, 0xcc], Op.mailWrite 0x4e [0x27, 0xcc], Op.mailWrite 0x4e [0x27, 0xcc],
   Op.mailWrite 0x4e [0x27, 0xcc], Op.mailWrite 0x4e [0x27, 0xcc], Op.readDevice0x9DCD 0x3f,
   Op.mailWrite 0x4e [0x00, 0xcc], Op.mailWrite 0x4e [0xb0, 0xe8], Op.readDevice0x9DCD 0x91,
   Op.mailWrite 0x4e [0xae, 0xc8], Op.mailWrite 0x4e [0xb1, 0x0c], Op.mailWrite 0x4e [0xb2, 0xcc],
   Op.mailWrite 0x4e [0xb3, 0xcc], Op.mailWrite 0x4e [0xb4, 0x99], Op.readDevice0x9DCD 0x8b,
   Op.mailWrite 0x4e [0xb4, 0x98], Op.readDevice0x9DCD 0x3f, Op.mailWrite 0x4e [0x00, 0xce],
   Op.mailWrite 0x4e [0x01, 0xad], Op.mailWrite 0x4e [0x02, 0x39], Op.readDevice0x9DCD 0x3c,
   Op.mailWrite 0x4e [0x03, 0xce], Op.mailWrite 0x4e [0x04, 0xcd], Op.mailWrite 0x4e [0x05, 0xcc],
   Op.mailWrite 0x4e [0x06, 0xc4], Op.mailWrite 0x4e [0x1c, 0xd6], Op.mailWrite 0x4e [0x1d, 0xcc],
   Op.mailWrite 0x4e [0x1e, 0xcc], Op.mailWrite 0x4e [0x1f, 0xcc], Op.readDevice0x9DCD 0x1a,
   Op.mailWrite 0x4e [0x25, 0x6e], Op.readDevice0x9DCD 0x3d, Op.mailWrite 0x4e [0x02, 0x39],
   Op.readDevice0x9DCD 0x38, Op.mailWrite 0x4e [0x07, 0xc8], Op.mailWrite 0x4e [0x17, 0x0c],
   Op.mailWrite 0x4e [0x19, 0x33], Op.mailWrite 0x4e [0x1a, 0x33], Op.mailWrite 0x4e [0x1b, 0x30],
   Op.mailWrite 0x4e [0x20, 0xcc], Op.readDevice0x9DCD 0x1e, Op.mailWrite 0x4e [0x21, 0xcc],
   Op.mailWrite 0x4e [0x22, 0xea], Op.mailWrite 0x4e [0x27, 0xcc], Op.readDevice0x9DCD 0x11,
   Op.mailWrite 0x4e [0x2e, 0x6d], Op.mailWrite 0x33 [0x99, 0x89, 0xfa], Op.mailRead 0x33 1,
   Op.mailWrite 0x33 [0x99, 0x89, 0xf9], Op.mailRead 0x33 1, Op.mailWrite 0x33 [0x99, 0x89, 0xf8],
   Op.mailRead 0x33 1, Op.mailWrite 0x33 [0x99, 0x89, 0xfe], Op.mailRead 0x33 1,
   Op.mailWrite 0x4c [0x05, 0x88], Op.mailWrite 0x4c [0x04, 0xb5], Op.mailWrite 0x4c [0x04, 0x95],
   Op.mailWrite 0x4c [0x61, 0xb8], Op.mailWrite 0x4c [0x09, 0x3a], Op.mailWrite 0x4c [0x0a, 0x70],
   Op.mailWrite 0x4c [0x0b, 0xbf], Op.mailWrite 0x4c [0xc9, 0x88], Op.mailWrite 0x4c [0xca, 0x88],
   Op.mailWrite 0x4c [0xcb, 0x88], Op.mailWrite 0x4c [0xcc, 0x88], Op.mailWrite 0x4c [0xcd, 0x88],
   Op.mailWrite 0x4c [0xce, 0x88], Op.mailWrite 0x4c [0xcf, 0x88], Op.mailWrite 0x4c [0xd0, 0x88]]

/-- Lines 410-425: the block issued on `GameCaptureHDNew` only. -/
def calibrationHDNew : List Op :=
  [Op.mailWrite 0x33 [0x21, 0x01, 0x72], Op.mailRead 0x33 1, Op.mailWrite 0x33 [0x20, 0x02, 0x63],
   Op.mailWrite 0x33 [0x20, 0x03, 0x63], Op.mailWrite 0x33 [0x20, 0x04, 0x77], Op.mailWrite 0x33 [0x20, 0x05, 0x73],
   Op.mailWrite 0x33 [0x20, 0x06, 0x73], Op.mailWrite 0x33 [0x20, 0x07, 0x33], Op.mailWrite 0x33 [0x20, 0x08, 0x31],
   Op.mailWrite 0x33 [0x20, 0x09, 0x33], Op.mailWrite 0x33 [0x20, 0x0a, 0x57], Op.mailWrite 0x33 [0x20, 0x0b, 0x7b],
   Op.mailWrite 0x33 [0x20, 0x0c, 0xf7], Op.mailWrite 0x33 [0x20, 0x0d, 0xf7], Op.mailWrite 0x33 [0x20, 0x0e, 0x73],
   Op.mailWrite 0x33 [0x20, 0x0f, 0x73]]

/-- Lines 427-586: the dump reads and the final write. -/
def calibrationDump : List Op :=
  [Op.mailWrite 0x33 [0xaa, 0x8f, 0x3b], Op.mailWrite 0x33 [0xab, 0x92, 0x3e, 0xb4, 0x03, 0x76],
   Op.mailRead 0x33 56, Op.mailWrite 0x33 [0xab, 0x92, 0x3e, 0xb4, 0x3b, 0x76],
   Op.mailRead 0x33 56, Op.mailWrite 0x33 [0xab, 0x92, 0x3e, 0xb4, 0x73, 0x76],
   Op.mailRead 0x33 56, Op.mailWrite 0x33 [0xab, 0x92, 0x3e, 0xb4, 0xab, 0x76],
   Op.mailRead 0x33 56, Op.mailWrite 0x33 [0xab, 0x92, 0x3e, 0xb4, 0xe3, 0x76],
   Op.mailRead 0x33 56, Op.mailWrite 0x33 [0xab, 0x92, 0x3e, 0xb4, 0x1b, 0x77],
   Op.mailRead 0x33 56, Op.mailWrite 0x33 [0xab, 0x92, 0x3e, 0xb4, 0x53, 0x77],
   Op.mailRead 0x33 56, Op.mailWrite 0x33 [0xab, 0x92, 0x3e, 0xb4, 0x8b, 0x77],
   Op.mailRead 0x33 56, Op.mailWrite 0x33 [0xab, 0x92, 0x3e, 0xb4, 0xc3, 0x77],
   Op.mailRead 0x33 56, Op.mailWrite 0x33 [0xab, 0x92, 0x3e, 0xb4, 0xfb, 0x77],
   Op.mailRead 0x33 56, Op.mailWrite 0x33 [0xab, 0x92, 0x3e, 0xb4, 0x33, 0x74],
   Op.mailRead 0x33 56, Op.mailWrite 0x33 [0xab, 0x92, 0x3e, 0xb4, 0x6b, 0x74],
   Op.mailRead 0x33 56, Op.mailWrite 0x33 [0xab, 0x92, 0x3e, 0xb4, 0xa3, 0x74],
   Op.mailRead 0x33 56, Op.mailWrite 0x33 [0xab, 0x92, 0x3e, 0xb4, 0xdb, 0x74],
   Op.mailRead 0x33 56, Op.mailWrite 0x33 [0xab, 0x92, 0x3e, 0xb4, 0x13, 0x75],
   Op.mailRead 0x33 56, Op.mailWrite 0x33 [0xab, 0x92, 0x3e, 0xb4, 0x4b, 0x75],
   Op.mailRead 0x33 56, Op.mailWrite 0x33 [0xab, 0x92, 0x3e, 0xb4, 0x83, 0x75],
   Op.mailRead 0x33 56, Op.mailWrite 0x33 [0xab, 0x92, 0x3e, 0xb4, 0xbb, 0x75],
   Op.mailRead 0x33 56, Op.mailWrite 0x33 [0xab, 0x92, 0x3e, 0xb4, 0xf3, 0x75],
   Op.mailRead 0x33 56, Op.mailWrite 0x33 [0xab, 0x92, 0x3e, 0xb4, 0x2b, 0x72],
   Op.mailRead 0x33 56, Op.mailWrite 0x33 [0xab, 0x92, 0x3e, 0xb4, 0x63, 0x72],
   Op.mailRead 0x33 56, Op.mailWrite 0x33 [0xab, 0x92, 0x3e, 0xb4, 0x9b, 0x72],
   Op.mailRead 0x33 56, Op.mailWrite 0x33 [0xab, 0x92, 0x3e, 0xb4, 0xd3, 0x72],
   Op.mailRead 0x33 56, Op.mailWrite 0x33 [0xab, 0x92, 0x3e, 0xb4, 0x0b, 0x73],
   Op.mailRead 0x33 56, Op.mailWrite 0x33 [0xab, 0x92, 0x3e, 0xb4, 0x43, 0x73],
   Op.mailRead 0x33 56, Op.mailWrite 0x33 [0xab, 0x92, 0x3e, 0xb4, 0x7b, 0x73],
   Op.mailRead 0x33 56, Op.mailWrite 0x33 [0xab, 0x92, 0x3e, 0xb4, 0xb3, 0x73],
   Op.mailRead 0x33 56, Op.mailWrite 0x33 [0xab, 0x92, 0x3e, 0xb4, 0xeb, 0x73],
   Op.mailRead 0x33 56, Op.mailWrite 0x33 [0xab, 0x92, 0x3e, 0xb4, 0x23, 0x70],
   Op.mailRead 0x33 56, Op.mailWrite 0x33 [0xab, 0x92, 0x3e, 0xb4, 0x5b, 0x70],
   Op.mailRead 0x33 56, Op.mailWrite 0x33 [0xab, 0x92, 0x3e, 0xb4, 0x93, 0x70],
   Op.mailRead 0x33 56, Op.mailWrite 0x33 [0xab, 0x92, 0x3e, 0xb4, 0xcb, 0x70],
   Op.mailRead 0x33 56, Op.mailWrite 0x33 [0xab, 0x92, 0x3e, 0xb4, 0x03, 0x71],
   Op.mailRead 0x33 56, Op.mailWrite 0x33 [0xab, 0x92, 0x3e, 0xb4, 0x3b, 0x71],
   Op.mailRead 0x33 56, Op.mailWrite 0x33 [0xab, 0x92, 0x3e, 0xb4, 0x73, 0x71],
   Op.mailRead 0x33 56, Op.mailWrite 0x33 [0xab, 0x92, 0x3e, 0xb4, 0xab, 0x71],
   Op.mailRead 0x33 56, Op.mailWrite 0x33 [0xab, 0x92, 0x3e, 0xb4, 0xe3, 0x71],
   Op.mailRead 0x33 56, Op.mailWrite 0x33 [0xab, 0x92, 0x3e, 0xb4, 0x1b, 0x7e],
   Op.mailRead 0x33 56, Op.mailWrite 0x33 [0xab, 0x92, 0x3e, 0xb4, 0x53, 0x7e],
   Op.mailRead 0x33 56, Op.mailWrite 0x33 [0xab, 0x92, 0x3e, 0xb4, 0x8b, 0x7e],
   Op.mailRead 0x33 56, Op.mailWrite 0x33 [0xab, 0x92, 0x3e, 0xb4, 0xc3, 0x7e],
   Op.mailRead 0x33 56, Op.mailWrite 0x33 [0xab, 0x92, 0x3e, 0xb4, 0xfb, 0x7e],
   Op.mailRead 0x33 56, Op.mailWrite 0x33 [0xab, 0x92, 0x3e, 0xb4, 0x33, 0x7f],
   Op.mailRead 0x33 56, Op.mailWrite 0x33 [0xab, 0x92, 0x3e, 0xb4, 0x6b, 0x7f],
   Op.mailRead 0x33 56, Op.mailWrite 0x33 [0xab, 0x92, 0x3e, 0xb4, 0xa3, 0x7f],
   Op.mailRead 0x33 56, Op.mailWrite 0x33 [0xab, 0x92, 0x3e, 0xb4, 0xdb, 0x7f],
   Op.mailRead 0x33 56, Op.mailWrite 0x33 [0xab, 0x92, 0x3e, 0xb4, 0x13, 0x7c],
   Op.mailRead 0x33 56, Op.mailWrite 0x33 [0xab, 0x92, 0x3e, 0xb4, 0x4b, 0x7c],
   Op.mailRead 0x33 56, Op.mailWrite 0x33 [0xab, 0x92, 0x3e, 0xb4, 0x83, 0x7c],
   Op.mailRead 0x33 56, Op.mailWrite 0x33 [0xab, 0x92, 0x3e, 0xb4, 0xbb, 0x7c],
   Op.mailRead 0x33 56, Op.mailWrite 0x33 [0xab, 0x92, 0x3e, 0xb4, 0xf3, 0x7c],
   Op.mailRead 0x33 56, Op.mailWrite 0x33 [0xab, 0x92, 0x3e, 0xb4, 0x2b, 0x7d],
   Op.mailRead 0x33 56, Op.mailWrite 0x33 [0xab, 0x92, 0x3e, 0xb4, 0x63, 0x7d],
   Op.mailRead 0x33 56, Op.mailWrite 0x33 [0xab, 0x92, 0x3e, 0xb4, 0x9b, 0x7d],
   Op.mailRead 0x33 56, Op.mailWrite 0x33 [0xab, 0x92, 0x3e, 0xb4, 0xd3, 0x7d],
   Op.mailRead 0x33 56, Op.mailWrite 0x33 [0xab, 0x92, 0x3e, 0xb4, 0x0b, 0x7a],
   Op.mailRead 0x33 56, Op.mailWrite 0x33 [0xab, 0x92, 0x3e, 0xb4, 0x43, 0x7a],
   Op.mailRead 0x33 56, Op.mailWrite 0x33 [0xab, 0x92, 0x3e, 0xb4, 0x7b, 0x7a],
   Op.mailRead 0x33 56, Op.mailWrite 0x33 [0xab, 0x92, 0x3e, 0xb4, 0xb3, 0x7a],
   Op.mailRead 0x33 56, Op.mailWrite 0x33 [0xab, 0x92, 0x3e, 0xb4, 0xeb, 0x7a],
   Op.mailRead 0x33 56, Op.mailWrite 0x33 [0xab, 0x92, 0x3e, 0xb4, 0x23, 0x7b],
   Op.mailRead 0x33 56, Op.mailWrite 0x33 [0xab, 0x92, 0x3e, 0xb4, 0x5b, 0x7b],
   Op.mailRead 0x33 56, Op.mailWrite 0x33 [0xab, 0x92, 0x3e, 0xb4, 0x93, 0x7b],
   Op.mailRead 0x33 56, Op.mailWrite 0x33 [0xab, 0x92, 0x3e, 0xb4, 0xcb, 0x7b],
   Op.mailRead 0x33 56, Op.mailWrite 0x33 [0xab, 0x92, 0x3e, 0xb4, 0x03, 0x78],
   Op.mailRead 0x33 56, Op.mailWrite 0x33 [0xab, 0x92, 0x3e, 0xb4, 0x3b, 0x78],
   Op.mailRead 0x33 56, Op.mailWrite 0x33 [0xab, 0x92, 0x3e, 0xb4, 0x73, 0x78],
   Op.mailRead 0x33 56, Op.mailWrite 0x33 [0xab, 0x92, 0x3e, 0xb4, 0xab, 0x78],
   Op.mailRead 0x33 56, Op.mailWrite 0x33 [0xab, 0x92, 0x3e, 0xb4, 0xe3, 0x78],
   Op.mailRead 0x33 56, Op.mailWrite 0x33 [0xab, 0x92, 0x3e, 0xb4, 0x1b, 0x79],
   Op.mailRead 0x33 56, Op.mailWrite 0x33 [0xab, 0x92, 0x3e, 0xb4, 0x53, 0x79],
   Op.mailRead 0x33 56, Op.mailWrite 0x33 [0xab, 0x92, 0x3e, 0xb4, 0x8b, 0x79],
   Op.mailRead 0x33 56, Op.mailWrite 0x33 [0xab, 0x92, 0x3e, 0xb4, 0xc3, 0x79],
   Op.mailRead 0x33 56, Op.mailWrite 0x33 [0xab, 0xa2, 0x3e, 0xb4, 0xfb, 0x79],
   Op.mailRead 0x33 8, Op.mailWrite 0x33 [0xaa, 0x8d, 0x35]]


/-- Lines 256-263: the two writes chosen by `analog`. -/
def calibrationAnalog (analog : Bool) : List Op :=
  if analog then [Op.mailWrite 0x44 [0x08, 0x91], Op.mailWrite 0x44 [0x09, 0xa8]]
  else [Op.mailWrite 0x44 [0x08, 0x9b], Op.mailWrite 0x44 [0x09, 0x7a]]

/-- Lines 326-331: the write chosen by the device revision. -/
def calibrationRevision (deviceType_ : DeviceType) : List Op :=
  if deviceType_ = DeviceType.GameCaptureHDNew then [Op.mailWrite 0x4e [0x24, 0x8c]]
  else [Op.mailWrite 0x4e [0x24, 0x8d]]

/-- Lines 408-426: the block guarded by `deviceType_ == GameCaptureHDNew`. -/
def calibrationExtra (deviceType_ : DeviceType) : List Op :=
  if deviceType_ = DeviceType.GameCaptureHDNew then calibrationHDNew else []

/-- Lines 233-586: the straight-line part of calibration replay after the trigger
bit is cleared, for a device revision and the value of `analog`. -/
def calibrationTail (deviceType_ : DeviceType) (analog : Bool) : List Op :=
  calibrationAfterTrigger ++ calibrationAnalog analog ++ calibrationCommon44 ++
  calibrationRevision deviceType_ ++ calibrationAfterRevision ++
  calibrationExtra deviceType_ ++ calibrationDump

/-- Calibration replay, lines 219-586. -/
def calibrationReplay (g : Session) (dev : Device) (fuel : Nat) : M Unit := do
  callAll calibrationHead
  call (.doEnable g.consts.EB_ENCODER_TRIGGER g.consts.EB_ENCODER_TRIGGER)
  ackPoll dev fuel
  call (.doEnable g.consts.EB_ENCODER_TRIGGER 0)
  let analog : Bool := decide ((← getInputSource) ≠ InputSource.HDMI)
  callAll (calibrationTail g.deviceType_ analog)

/-! ## Bring-up: post-activation configuration and final dispatch (lines 595-656) -/

/-- Lines 616-633: the endpoint-0x4e writes after the handshake. -/
def postInit4e (composite : Bool) : List Op :=
  [Op.readDevice0x9DCD 0x3f, Op.mailWrite 0x4e [0x00, 0xcc]] ++
  (if !composite then [Op.mailWrite 0x4e [0xb3, 0xcc]] else [Op.mailWrite 0x4e [0xb3, 0x33]]) ++
  [Op.readDevice0x9DCD 0x3f, Op.mailWrite 0x4e [0x00, 0xce]] ++
  (if !composite then [Op.mailWrite 0x4e [0x27, 0xcc]]
   else [Op.mailWrite 0x4e [0x27, 0x33], Op.readDevice0x9DCD 0x3f, Op.mailWrite 0x4e [0x00, 0xcc],
         Op.readDevice0x9DCD 0x6e, Op.mailWrite 0x4e [0x51, 0xcc]])

/-- Lines 595-636. -/
def postActivation (g : Session) : M Unit := do
  call .transcoderSetup
  call (.transcoderOutputEnable true)
  let analog : Bool := decide ((← getInputSource) ≠ InputSource.HDMI)
  let composite : Bool := decide ((← getInputSource) = InputSource.Composite)
  call (.scmd g.consts.SCMD_INIT 0xa0 0x0000)
  callAll (postInitHandshake composite)
  callAll (postInit4e composite)
  call (.doEnable g.consts.EB_COMPOSITE_MUX (if composite then g.consts.EB_COMPOSITE_MUX else 0))
  call (.doEnable g.consts.EB_ANALOG_INPUT (if analog then g.consts.EB_ANALOG_INPUT else 0))
  call (.doEnable g.consts.EB_ANALOG_MUX (if analog then g.consts.EB_ANALOG_MUX else 0))

/-- The final `switch (settings_->getInputSource())` of lines 639-656; the cases
for Composite and Component are compiled out by `#if 0`. -/
def finalDispatch : M Unit := do
  match (← getInputSource) with
  | InputSource.HDMI => call .configureHDMI
  | _ => raise Error.unknownInputSource

/-- The procedure `GCHD::configureDevice`; every polling loop may run `fuel` times. -/
def configureDevice (g : Session) (dev : Device) (fuel : Nat) : M Unit := do
  call .readVersion
  call (.write_config g.consts.BANKSEL 0x0000)
  saveEnableState g dev
  let state ← bootState g dev fuel
  flashOrReset g dev state
  mailWrite 0x33 [0xab, 0xa9, 0x0f, 0xa4, 0x55]
  let _ ← mailRead dev 0x33 3
  handshakeLoop g dev fuel true
  activationWait dev fuel
  call (.doEnable g.consts.EB_ENCODER_ENABLE g.consts.EB_ENCODER_ENABLE)
  reconfirmLoop dev fuel
  calibrationReplay g dev fuel
  activationWait dev fuel
  postActivation g
  finalDispatch

/-- The operations of the body of the second `if` of `uninitDevice` (lines 673-696). -/
def uninitSequence (g : Session) : List Op :=
  [Op.mailWrite 0x44 [0x06, 0x86], Op.mailWrite 0x33 [0x89, 0x89, 0xf8], Op.mailRead 0x33 1,
   Op.mailWrite 0x44 [0x03, 0x2f],
   Op.write_config g.consts.BANKSEL 0x0000, Op.readEnableState,
   Op.read_config g.consts.SCMD_STATE_READBACK_REGISTER,
   Op.transcoderOutputEnable false, Op.scmd g.consts.SCMD_INIT 0xa0 0x0000,
   Op.clearEnableState, Op.doEnable g.consts.EB_FIRMWARE_PROCESSOR 0x0,
   Op.stateConfirmedScmd g.consts.SCMD_IDLE 0x00 0x0000,
   Op.stateConfirmedScmd g.consts.SCMD_RESET 0x01 0x0000]

/-- The value of `state` in `uninitDevice` entered in state `s`: the 16-bit answer
to the read of the state-readback register, masked to its low five bits. -/
def uninitState (dev : Device) (s : State) : Nat :=
  (dev.word s.trace % 65536) &&& 0x1f

/-- The operations of `uninitDevice` when the second `if` is not taken: the initial
read and, for the states `SCMD_STATE_START` and `SCMD_STATE_NULL`, `stopStream(true)`. -/
def uninitQuiescedOps (g : Session) (state : Nat) : List Op :=
  [Op.read_config g.consts.SCMD_STATE_READBACK_REGISTER] ++
  (if state = g.consts.SCMD_STATE_START ∨ state = g.consts.SCMD_STATE_NULL
   then [Op.stopStream true] else [])

/-! ## Concrete sessions and devices used in the examples -/

/-- Sample values for the named constants (pairwise distinct registers, commands
and enable bits). -/
def sampleConsts : Consts where
  BANKSEL := 0x8000
  MAIL_SEND_ENABLE_REGISTER_STATE := 0xbc04
  ENABLE_REGISTER := 0xbc08
  SCMD_STATE_READBACK_REGISTER := 0xbc0c
  SCMD_STATE_CHANGE_COMPLETE := 0xbc10
  SCMD_IDLE := 1
  SCMD_INIT := 4
  SCMD_RESET := 6
  SCMD_STATE_START := 0x02
  SCMD_STATE_NULL := 0x08
  EB_FIRMWARE_PROCESSOR := 0x0001
  EB_ENCODER_ENABLE := 0x0002
  EB_ENCODER_TRIGGER := 0x0004
  EB_COMPOSITE_MUX := 0x0008
  EB_ANALOG_INPUT := 0x0010
  EB_ANALOG_MUX := 0x0020

/-- A sample session on the given device revision. -/
def sampleSession (deviceType_ : DeviceType) : Session where
  deviceType_ := deviceType_
  firmwareIdle_ := "mb86h57_h58_idle.bin"
  firmwareEnc_ := "mb86h57_h58_enc_h.bin"
  consts := sampleConsts

/-- The state at entry: nothing issued yet, the given pre-selected input source. -/
def initialState (src : InputSource) : State where
  trace := []
  inputSource := src
  savedEnableStateRegister_ := 0
  savedEnableRegister_ := 0

/-- A simulated device: every 16-bit read answers `word`; a mailbox read answers
`0x27f97b` after a probe `..55`, `0x78e045` after a probe `..5b`, `0xf7` after the
acknowledgement poll, and zeros otherwise. -/
def simulatedDevice (word mask : Nat) : Device where
  word := fun _ => word
  byte := fun history i =>
    match history.getLast? with
    | some (Op.mailWrite 0x33 [0xab, 0xa9, 0x0f, 0xa4, 0x55]) => [0x27, 0xf9, 0x7b].getD i 0
    | some (Op.mailWrite 0x33 [0xab, 0xa9, 0x0f, 0xa4, 0x5b]) => [0x78, 0xe0, 0x45].getD i 0
    | some (Op.mailWrite 0x33 [0x43, 0x23, 0x84]) => 0xf7
    | _ => 0
  specialDetectMask := mask

/-! ## Reference definitions for the mode probe -/

/-- The phases of the spec's `DeviceModePhase`. -/
inductive DeviceModePhase where
  | Unprogrammed
  | ProcessorEnabled
  | EncoderReady
  | EncoderActive
  | Unrecognized (code : Nat)
  deriving DecidableEq

/-- The lookup of the spec's `DeviceModeDetector`: `0x334455` is Unprogrammed,
`0x27f97b` is EncoderReady, `0x78e045` is EncoderActive, any other value is
Unrecognized. -/
def classifyMode (code : Nat) : DeviceModePhase :=
  if code = 0x334455 then DeviceModePhase.Unprogrammed
  else if code = 0x27f97b then DeviceModePhase.EncoderReady
  else if code = 0x78e045 then DeviceModePhase.EncoderActive
  else DeviceModePhase.Unrecognized code

/-- The 5-byte probe payload ending in `last` (`0x55` or `0x5b`). -/
def probePayload (last : Nat) : List Nat := [0xab, 0xa9, 0x0f, 0xa4, last]

/-- The state after a mode probe issued in state `s`: the probe write and the
3-byte read. -/
def afterProbe (s : State) (last : Nat) : State :=
  (s.log (Op.mailWrite 0x33 (probePayload last))).log (Op.mailRead 0x33 3)

/-- The three bytes the device answers to a mode probe issued in state `s`. -/
def probeBytes (dev : Device) (s : State) (last : Nat) : List Nat :=
  (List.range 3).map
    (fun i => dev.byte (s.trace ++ [Op.mailWrite 0x33 (probePayload last)]) i % 256)

/-! ## Trace observations -/

/-- The operations that matter for counting firmware loads, source commits and
HDMI finalisation. -/
def interesting : Op → Bool
  | Op.dlfirm _ => true
  | Op.setInputSource _ => true
  | Op.configureHDMI => true
  | _ => false

/-- Is the operation a call of `dlfirm`? -/
def isDlfirm : Op → Bool
  | Op.dlfirm _ => true
  | _ => false

/-- Is the operation a call of `setInputSource`? -/
def isSetInputSource : Op → Bool
  | Op.setInputSource _ => true
  | _ => false

/-- Is the operation the call of `configureHDMI`? -/
def isConfigureHDMI : Op → Bool
  | Op.configureHDMI => true
  | _ => false

/-- The operations a run that started in state `s` has performed when it ends
with outcome `r`. -/
def opsOf {α : Type} (s : State) (r : Result α) : List Op :=
  r.state.trace.drop s.trace.length

/-- A computation that, whatever its outcome, only appends to the trace, issues no
`dlfirm`, `setInputSource` or `configureHDMI`, and leaves the input source alone. -/
def Quiet {α : Type} (f : M α) : Prop :=
  ∀ s : State, s.trace <+: (f s).state.trace ∧
    (f s).state.trace.filter interesting = s.trace.filter interesting ∧
    (f s).state.inputSource = s.inputSource

/-- Did the run complete normally? -/
def Result.isOk {α : Type} : Result α → Bool
  | .ok _ _ => true
  | _ => false

/-- The input source bring-up works with once EncoderReady has been observed: the
pre-selected one, or for Unknown the one the detection rule names (`none` where
detection raises). -/
def resolveSource (src : InputSource) (mask : Nat) : Option InputSource :=
  if src = InputSource.Unknown then detectRule mask else some src

/-- The `setInputSource` call of the first EncoderReady visit: none when a source
was pre-selected. -/
def commitOps (src : InputSource) (mask : Nat) : List Op :=
  if src = InputSource.Unknown then
    match detectRule mask with
    | some x => [Op.setInputSource x]
    | none => []
  else []

/-- Summary of the outcome `r` of a run started in `s`: the trace only grew, a
pre-selected input source is kept, and the `dlfirm`, `setInputSource` and
`configureHDMI` calls added are an initial part of `full`, all of it when the run
completed normally. -/
def Summary {α : Type} (full : List Op) (s : State) (r : Result α) : Prop :=
  s.trace <+: r.state.trace ∧
  (s.inputSource ≠ InputSource.Unknown → r.state.inputSource = s.inputSource) ∧
  ∃ seg : List Op, seg <+: full ∧
    r.state.trace.filter interesting = s.trace.filter interesting ++ seg ∧
    (r.isOk = true → seg = full)

/-- The value of the local `state` of `configureDevice` (lines 31-63) in a run
started in `s`: the 16-bit answer to the fourth operation of the run, masked to five
bits on `GameCaptureHDNew`. -/
def bootValue (g : Session) (dev : Device) (s : State) : Nat :=
  let answer := dev.word (s.trace ++ [Op.readVersion, Op.write_config g.consts.BANKSEL 0x0000,
    Op.read_config g.consts.MAIL_SEND_ENABLE_REGISTER_STATE]) % 65536
  match g.deviceType_ with
  | DeviceType.GameCaptureHD => answer
  | DeviceType.GameCaptureHDNew => answer &&& 0x1f

/-- The `dlfirm` call of the flash path: none when the device was already up. -/
def flashOps (g : Session) (state : Nat) : List Op :=
  if state = 0x0000 then [Op.dlfirm g.firmwareIdle_] else []

/-- The `dlfirm`, `setInputSource` and `configureHDMI` calls of a complete
bring-up, in order. -/
def bringUpOps (g : Session) (dev : Device) (s : State) : List Op :=
  flashOps g (bootValue g dev s) ++
    ((commitOps s.inputSource dev.specialDetectMask ++ [Op.dlfirm g.firmwareEnc_]) ++
      [Op.configureHDMI])

/-- A run that completed normally ended with the HDMI source, by `configureHDMI`. -/
def EndsWithHDMI {α : Type} (r : Result α) : Prop :=
  ∀ u s1, r = Result.ok u s1 →
    s1.inputSource = InputSource.HDMI ∧ s1.trace.getLast? = some Op.configureHDMI

/-- A device that answers zero to every read. -/
def silentDevice : Device where
  word := fun _ => 0
  byte := fun _ _ => 0
  specialDetectMask := 0

/-! ## Probe discipline -/

/-- Is the operation the write of a mode probe (payload `..55` or `..5b`)? -/
def isProbeWrite : Op → Bool
  | Op.mailWrite 0x33 [0xab, 0xa9, 0x0f, 0xa4, 0x55] => true
  | Op.mailWrite 0x33 [0xab, 0xa9, 0x0f, 0xa4, 0x5b] => true
  | _ => false

/-- Scan a sequence of operations; `pending` tells whether a mode probe has been
issued that no `enableAnalogInput` has followed yet. The result is `true` when no
probe is issued while another is pending and none is pending at the end. -/
def probesFollowed : Bool → List Op → Bool
  | pending, [] => !pending
  | pending, op :: rest =>
    if isProbeWrite op then !pending && probesFollowed true rest
    else if op = Op.enableAnalogInput then probesFollowed false rest
    else probesFollowed pending rest

/-- Every mode probe in `ops` is followed by `enableAnalogInput` before the next
mode probe and before the end of `ops`. -/
def probeDiscipline (ops : List Op) : Bool := probesFollowed false ops

/-- Is the operation a mailbox write to endpoint `0x33`? -/
def isMailWrite33 : Op → Bool
  | Op.mailWrite 0x33 _ => true
  | _ => false

/-- Is the operation a mailbox read? -/
def isMailRead : Op → Bool
  | Op.mailRead _ _ => true
  | _ => false

/-- The session `g` on the given device revision. -/
def Session.onRevision (g : Session) (deviceType_ : DeviceType) : Session :=
  { g with deviceType_ := deviceType_ }

/-! ## The acknowledgement poll -/

/-- The write of the acknowledgement poll, `mailWrite(0x33, {43,23,84})`. -/
def ackWrite : Op := Op.mailWrite 0x33 [0x43, 0x23, 0x84]

/-- The operations of `n` passes through the acknowledgement poll: `n` times the
write `{43,23,84}` and the 1-byte read. -/
def ackPolls : Nat → List Op
  | 0 => []
  | n + 1 => [ackWrite, Op.mailRead 0x33 1] ++ ackPolls n

/-- A computation that never throws. -/
def Calm {α : Type} (f : M α) : Prop :=
  ∀ (s : State) (e : Error) (s1 : State), f s ≠ Result.raised e s1

/-! ## The boot phase as part of the whole procedure -/

/-- Lines 99-656: what `configureDevice` does after `stateConfirmedScmd(SCMD_IDLE)`. -/
def bringUpRest (g : Session) (dev : Device) (fuel : Nat) : M Unit := do
  mailWrite 0x33 [0xab, 0xa9, 0x0f, 0xa4, 0x55]
  let _ ← mailRead dev 0x33 3
  handshakeLoop g dev fuel true
  activationWait dev fuel
  call (.doEnable g.consts.EB_ENCODER_ENABLE g.consts.EB_ENCODER_ENABLE)
  reconfirmLoop dev fuel
  calibrationReplay g dev fuel
  activationWait dev fuel
  postActivation g
  finalDispatch

/-- The state in which `configureDevice`, started in `s`, determines the boot state:
after `readVersion`, the bank select and the snapshot of the enable state. -/
def bootEntry (g : Session) (dev : Device) (s : State) : State :=
  { s with
    trace := s.trace ++ [Op.readVersion, Op.write_config g.consts.BANKSEL 0x0000,
      Op.read_config g.consts.MAIL_SEND_ENABLE_REGISTER_STATE]
    savedEnableStateRegister_ :=
      dev.word (s.trace ++ [Op.readVersion, Op.write_config g.consts.BANKSEL 0x0000]) % 65536 }

/-- The operations of lines 64-94 for a boot state: the flash path or the reset,
then SCMD idle. -/
def flashOrResetOps (g : Session) (state : Nat) : List Op :=
  (if state = 0x0000 then
    [Op.dlfirm g.firmwareIdle_, Op.write_config4 0xbc 0x0900 0x0070 0x0004,
     Op.read_config g.consts.MAIL_SEND_ENABLE_REGISTER_STATE,
     Op.read_config g.consts.ENABLE_REGISTER,
     Op.read_configN 0xbc 0x0000 0x0010 2, Op.read_configN 0xbc 0x0000 0x0012 2,
     Op.read_configN 0xbc 0x0000 0x0014 2, Op.read_configN 0xbc 0x0000 0x0016 2,
     Op.read_configN 0xbc 0x0000 0x0018 2, Op.read_configN 0xbc 0x0000 0x001a 2,
     Op.read_configN 0xbc 0x0000 0x001c 2, Op.read_configN 0xbc 0x0000 0x001e 2]
   else [Op.stateConfirmedScmd g.consts.SCMD_RESET 0x00 0x0000]) ++
  [Op.stateConfirmedScmd g.consts.SCMD_IDLE 0x00 0x0000]

/-- A computation that only appends to the trace, whatever its outcome. -/
def Grows {α : Type} (f : M α) : Prop :=
  ∀ s : State, s.trace <+: (f s).state.trace

/-- The outcome `r` of a run, when it is an outcome of the final switch (a normal
return or the "unknown input source" error), is the outcome of `finalDispatch`
entered with an input source other than Unknown. -/
def DispatchResolved (r : Result Unit) : Prop :=
  (r.isOk = true ∨ ∃ s1, r = Result.raised Error.unknownInputSource s1) →
    ∃ s9 : State, r = finalDispatch s9 ∧ s9.inputSource ≠ InputSource.Unknown

/-- The byte answered to pass number `k + 1` of the acknowledgement poll, when the
poll starts after the operations `base`: the `k` earlier passes and the write of
this pass have been issued. -/
def ackAnswer (dev : Device) (base : List Op) (k : Nat) : Nat :=
  dev.byte (base ++ ackPolls k ++ [ackWrite]) 0 % 256

/-- A simulated device that acknowledges at the second pass of the acknowledgement
poll only: it answers `0xf7` to the read after the write `{43,23,84}` once that
write has been issued twice, `0x00` to that read before, and `noise` to every other
read. -/
def slowAckDevice (noise : Nat) : Device where
  word := fun _ => noise
  byte := fun history _ =>
    match history.getLast? with
    | some (Op.mailWrite 0x33 [0x43, 0x23, 0x84]) =>
      if 2 ≤ history.count (Op.mailWrite 0x33 [0x43, 0x23, 0x84]) then 0xf7 else 0x00
    | _ => noise
  specialDetectMask := 0

/-! # Theorems -/

/-! ## Reasoning about `M` -/

@[simp] theorem bind_apply {α β : Type} (x : M α) (f : α → M β) (s : State) :
    (x >>= f) s = M.bind x f s := rfl

@[simp] theorem pure_apply {α : Type} (a : α) (s : State) :
    (pure a : M α) s = Result.ok a s := rfl

@[simp] theorem call_apply (op : Op) (s : State) : call op s = Result.ok () (s.log op) := rfl

@[simp] theorem mailWrite_apply (port : Nat) (payload : List Nat) (s : State) :
    mailWrite port payload s = Result.ok () (s.log (Op.mailWrite port payload)) := rfl

@[simp] theorem callAll_apply (ops : List Op) (s : State) :
    callAll ops s = Result.ok () { s with trace := s.trace ++ ops } := rfl

@[simp] theorem raise_apply (e : Error) (s : State) : raise e s = Result.raised e s := rfl

@[simp] theorem giveUp_apply {α : Type} (s : State) :
    (giveUp : M α) s = Result.outOfFuel s := rfl

@[simp] theorem getInputSource_apply (s : State) :
    getInputSource s = Result.ok s.inputSource s := rfl

@[simp] theorem setInputSource_apply (src : InputSource) (s : State) :
    setInputSource src s =
      Result.ok () { s.log (Op.setInputSource src) with inputSource := src } := rfl

@[simp] theorem read_config_apply (dev : Device) (reg : Nat) (s : State) :
    read_config dev reg s = Result.ok (dev.word s.trace % 65536) (s.log (Op.read_config reg)) := rfl

@[simp] theorem completeStateChange_apply (dev : Device) (a b : Nat) (s : State) :
    completeStateChange dev a b s =
      Result.ok (dev.word s.trace % 65536) (s.log (Op.completeStateChange a b)) := rfl

@[simp] theorem mailRead_apply (dev : Device) (port length : Nat) (s : State) :
    mailRead dev port length s =
      Result.ok ((List.range length).map (fun i => dev.byte s.trace i % 256))
        (s.log (Op.mailRead port length)) := rfl

@[simp] theorem log_trace (s : State) (op : Op) : (s.log op).trace = s.trace ++ [op] := rfl

@[simp] theorem log_inputSource (s : State) (op : Op) :
    (s.log op).inputSource = s.inputSource := rfl

/-! ## Signal auto-detection -/

theorem mask_cableType (mask : Nat) : mask &&& 3 = mask % 4 :=
  Nat.and_pow_two_sub_one_eq_mod mask 2

theorem mask_bit3 (mask : Nat) : (mask >>> 3) &&& 1 = mask / 8 % 2 := by
  rw [Nat.and_one_is_mod, Nat.shiftRight_eq_div_pow]

theorem mask_bit5 (mask : Nat) : (mask >>> 5) &&& 1 = mask / 32 % 2 := by
  rw [Nat.and_one_is_mod, Nat.shiftRight_eq_div_pow]

theorem testBit3 (mask : Nat) : mask.testBit 3 = decide (mask / 8 % 2 = 1) :=
  Nat.testBit_to_div_mod

theorem testBit5 (mask : Nat) : mask.testBit 5 = decide (mask / 32 % 2 = 1) :=
  Nat.testBit_to_div_mod

/-- What the detection block does, for every mask: it commits the source the
reference rule names, or raises where the rule names none. -/
theorem autoDetect_eq (mask : Nat) (s : State) :
    autoDetect mask s =
      match detectRule mask with
      | some src => Result.ok () { s.log (Op.setInputSource src) with inputSource := src }
      | none => Result.raised Error.badCableDetectionCode s := by
  unfold autoDetect detectRule
  rw [mask_bit3, mask_bit5, mask_cableType, testBit3, testBit5]
  have c4 : mask % 4 = 0 ∨ mask % 4 = 1 ∨ mask % 4 = 2 ∨ mask % 4 = 3 := by omega
  have b3 : mask / 8 % 2 = 0 ∨ mask / 8 % 2 = 1 := by omega
  have b5 : mask / 32 % 2 = 0 ∨ mask / 32 % 2 = 1 := by omega
  rcases c4 with c | c | c | c <;> rcases b3 with x | x <;> rcases b5 with y | y <;>
    simp [c, x, y]

theorem testBit_eq_iff (m n i : Nat) :
    m.testBit i = n.testBit i ↔ (m / 2 ^ i % 2 = 1 ↔ n / 2 ^ i % 2 = 1) := by
  rw [Nat.testBit_to_div_mod, Nat.testBit_to_div_mod, decide_eq_decide]

theorem detectRule_congr (m n : Nat) (h0 : m.testBit 0 = n.testBit 0)
    (h1 : m.testBit 1 = n.testBit 1) (h3 : m.testBit 3 = n.testBit 3)
    (h5 : m.testBit 5 = n.testBit 5) : detectRule m = detectRule n := by
  have e0 := (testBit_eq_iff m n 0).1 h0
  have e1 := (testBit_eq_iff m n 1).1 h1
  have hc : m &&& 3 = n &&& 3 := by
    rw [mask_cableType, mask_cableType]
    norm_num at e0 e1
    omega
  unfold detectRule
  rw [hc, h3, h5]

/-- C1: for every detection mask (in particular every 16-bit one) for which
detection does not raise, the input source committed by the detection block of
`configureDevice` is the one the reference rule names, and it is committed by one
`setInputSource` call; the outcome of detection depends only on bits 0, 1, 3 and 5
of the mask. -/
theorem autoDetect_commits_detectRule :
    (∀ (mask : Nat) (s s1 : State), autoDetect mask s = Result.ok () s1 →
        detectRule mask = some s1.inputSource ∧
        s1.trace = s.trace ++ [Op.setInputSource s1.inputSource]) ∧
    (∀ m n : Nat, m.testBit 0 = n.testBit 0 → m.testBit 1 = n.testBit 1 →
        m.testBit 3 = n.testBit 3 → m.testBit 5 = n.testBit 5 →
        autoDetect m = autoDetect n) := by
  refine ⟨?_, ?_⟩
  · intro mask s s1 h
    rw [autoDetect_eq] at h
    cases hd : detectRule mask with
    | none => rw [hd] at h; cases h
    | some src =>
      rw [hd] at h
      injection h with _ hs
      subst hs
      exact ⟨rfl, rfl⟩
  · intro m n h0 h1 h3 h5
    funext s
    rw [autoDetect_eq, autoDetect_eq, detectRule_congr m n h0 h1 h3 h5]

/-- Witness for C1: the mask `0x22` (cable type 2, analog signal present) commits
Component. -/
theorem autoDetect_commits_detectRule_witness :
    detectRule 0x22 = some InputSource.Component ∧
    [Op.setInputSource InputSource.Component] =
      ([] : List Op) ++ [Op.setInputSource InputSource.Component] :=
  autoDetect_commits_detectRule.1 0x22 ⟨[], InputSource.Unknown, 0, 0⟩
    ⟨[Op.setInputSource InputSource.Component], InputSource.Component, 0, 0⟩ (by decide)

/-- C2, as stated, fails: the mask `0x0001` has cable type 1, yet detection raises
nothing and commits HDMI, because the analog-present flag (bit 5) is clear. -/
theorem autoDetect_cableType_one_no_error :
    (0x0001 : Nat) < 65536 ∧ (0x0001 : Nat) &&& 3 = 1 ∧
    autoDetect 0x0001 ⟨[], InputSource.Unknown, 0, 0⟩ =
      Result.ok () ⟨[Op.setInputSource InputSource.HDMI], InputSource.HDMI, 0, 0⟩ := by
  decide

/-- C2 (amended): for every detection mask whose cable-type field is 1, detection
raises "bad cable detection code" and calls no `setInputSource` (the state is
unchanged) when the analog-present flag, bit 5, is set; when bit 5 is clear it raises
nothing and commits HDMI. -/
theorem autoDetect_cableType_one (mask : Nat) (s : State) (hc : mask &&& 3 = 1) :
    (mask.testBit 5 = true →
      autoDetect mask s = Result.raised Error.badCableDetectionCode s) ∧
    (mask.testBit 5 = false →
      autoDetect mask s =
        Result.ok () { s.log (Op.setInputSource InputSource.HDMI) with
                       inputSource := InputSource.HDMI }) := by
  constructor <;> intro h5 <;> rw [autoDetect_eq] <;> simp [detectRule, hc, h5]

/-- Witness for the amended C2: the mask `0x21`. -/
theorem autoDetect_cableType_one_witness :
    autoDetect 0x21 ⟨[], InputSource.Unknown, 0, 0⟩ =
      Result.raised Error.badCableDetectionCode ⟨[], InputSource.Unknown, 0, 0⟩ :=
  (autoDetect_cableType_one 0x21 ⟨[], InputSource.Unknown, 0, 0⟩ (by decide)).1 (by decide)

/-! ## Teardown -/

/-- The operations `uninitDevice` performs, for every answer of the device. -/
theorem uninitDevice_eq (g : Session) (dev : Device) (s : State) :
    uninitDevice g dev s =
      Result.ok () { s with trace := s.trace ++
        (uninitQuiescedOps g (uninitState dev s) ++
         (if uninitState dev s ≠ 0x12 ∧ uninitState dev s ≠ 0x00 ∧ uninitState dev s ≠ 0x10
          then uninitSequence g else [])) } := by
  unfold uninitDevice uninitState uninitSequence uninitQuiescedOps
  by_cases h1 : (dev.word s.trace % 65536) &&& 0x1f = g.consts.SCMD_STATE_START ∨
      (dev.word s.trace % 65536) &&& 0x1f = g.consts.SCMD_STATE_NULL <;>
  by_cases h2 : (dev.word s.trace % 65536) &&& 0x1f ≠ 0x12 ∧
      (dev.word s.trace % 65536) &&& 0x1f ≠ 0x00 ∧ (dev.word s.trace % 65536) &&& 0x1f ≠ 0x10 <;>
  simp [M.bind, State.log, h1, h2]

/-- C3: for every answer of the state-readback register whose low five bits are
`0x00`, `0x10` or `0x12`, `uninitDevice` performs nothing but the initial read and the
optional `stopStream(true)`. Consequently, after a teardown that ran in full (its
last operation is `stateConfirmedScmd(SCMD_RESET, 1, 0)`), a second teardown that
reads back state `0x12` performs nothing but that read and the optional `stopStream`. -/
theorem uninitDevice_quiesced (g : Session) (dev : Device) :
    (∀ s : State,
      uninitState dev s = 0x00 ∨ uninitState dev s = 0x10 ∨ uninitState dev s = 0x12 →
      uninitDevice g dev s =
        Result.ok () { s with trace := s.trace ++ uninitQuiescedOps g (uninitState dev s) }) ∧
    (∀ s : State,
      ¬ (uninitState dev s = 0x00 ∨ uninitState dev s = 0x10 ∨ uninitState dev s = 0x12) →
      ((uninitDevice g dev s).state.trace.getLast? =
          some (Op.stateConfirmedScmd g.consts.SCMD_RESET 0x01 0x0000)) ∧
      (uninitState dev (uninitDevice g dev s).state = 0x12 →
        uninitDevice g dev (uninitDevice g dev s).state =
          Result.ok () { (uninitDevice g dev s).state with
            trace := (uninitDevice g dev s).state.trace ++ uninitQuiescedOps g 0x12 })) := by
  have quiet : ∀ s : State,
      uninitState dev s = 0x00 ∨ uninitState dev s = 0x10 ∨ uninitState dev s = 0x12 →
      uninitDevice g dev s =
        Result.ok () { s with trace := s.trace ++ uninitQuiescedOps g (uninitState dev s) } := by
    intro s h
    have hn : ¬ (uninitState dev s ≠ 0x12 ∧ uninitState dev s ≠ 0x00 ∧
        uninitState dev s ≠ 0x10) := by
      rcases h with h | h | h <;> simp [h]
    rw [uninitDevice_eq, if_neg hn, List.append_nil]
  refine ⟨quiet, ?_⟩
  intro s h
  constructor
  · have hy : uninitState dev s ≠ 0x12 ∧ uninitState dev s ≠ 0x00 ∧
        uninitState dev s ≠ 0x10 := by
      refine ⟨fun e => h (Or.inr (Or.inr e)), fun e => h (Or.inl e), fun e => h (Or.inr (Or.inl e))⟩
    rw [uninitDevice_eq, if_pos hy]
    simp [Result.state, uninitSequence, List.getLast?_append]
  · intro h12
    have := quiet (uninitDevice g dev s).state (Or.inr (Or.inr h12))
    rw [h12] at this
    exact this

/-- Witness for C3: the device reads back `0x12` at entry. -/
theorem uninitDevice_quiesced_witness :
    uninitDevice (sampleSession DeviceType.GameCaptureHD) (simulatedDevice 0x12 0)
        (initialState InputSource.HDMI) =
      Result.ok () { initialState InputSource.HDMI with
        trace := (initialState InputSource.HDMI).trace ++
          uninitQuiescedOps (sampleSession DeviceType.GameCaptureHD)
            (uninitState (simulatedDevice 0x12 0) (initialState InputSource.HDMI)) } :=
  (uninitDevice_quiesced (sampleSession DeviceType.GameCaptureHD) (simulatedDevice 0x12 0)).1
    (initialState InputSource.HDMI) (by decide)

/-- C7: for every state-readback value, with `state` its low five bits, the
operations `uninitDevice` performs after the initial read are exactly, in order:
`stopStream(true)` iff `state` is `SCMD_STATE_START` or `SCMD_STATE_NULL`; then, iff
`state` is none of `0x00`, `0x10`, `0x12`, the thirteen listed operations. The first
four are the handshake of the non-composite branch of bring-up, which bring-up also
issues right after `scmd(SCMD_INIT, 0xa0, 0)`. -/
theorem uninitDevice_operations (g : Session) (dev : Device) :
    (∀ s : State, uninitDevice g dev s =
      Result.ok () { s with trace := s.trace ++
        ([Op.read_config g.consts.SCMD_STATE_READBACK_REGISTER] ++
         (if uninitState dev s = g.consts.SCMD_STATE_START ∨
              uninitState dev s = g.consts.SCMD_STATE_NULL
          then [Op.stopStream true] else []) ++
         (if uninitState dev s ≠ 0x00 ∧ uninitState dev s ≠ 0x10 ∧ uninitState dev s ≠ 0x12
          then [Op.mailWrite 0x44 [0x06, 0x86], Op.mailWrite 0x33 [0x89, 0x89, 0xf8],
                Op.mailRead 0x33 1, Op.mailWrite 0x44 [0x03, 0x2f],
                Op.write_config g.consts.BANKSEL 0, Op.readEnableState,
                Op.read_config g.consts.SCMD_STATE_READBACK_REGISTER,
                Op.transcoderOutputEnable false, Op.scmd g.consts.SCMD_INIT 0xa0 0,
                Op.clearEnableState, Op.doEnable g.consts.EB_FIRMWARE_PROCESSOR 0,
                Op.stateConfirmedScmd g.consts.SCMD_IDLE 0 0,
                Op.stateConfirmedScmd g.consts.SCMD_RESET 1 0]
          else [])) }) ∧
    (∀ s : State, s.inputSource ≠ InputSource.Composite →
      ∃ rest : List Op, (postActivation g s).state.trace = s.trace ++
        ([Op.transcoderSetup, Op.transcoderOutputEnable true,
          Op.scmd g.consts.SCMD_INIT 0xa0 0,
          Op.mailWrite 0x44 [0x06, 0x86], Op.mailWrite 0x33 [0x89, 0x89, 0xf8],
          Op.mailRead 0x33 1, Op.mailWrite 0x44 [0x03, 0x2f]] ++ rest)) := by
  constructor
  · intro s
    rw [uninitDevice_eq]
    have e : (uninitState dev s ≠ 0x00 ∧ uninitState dev s ≠ 0x10 ∧ uninitState dev s ≠ 0x12) ↔
        (uninitState dev s ≠ 0x12 ∧ uninitState dev s ≠ 0x00 ∧ uninitState dev s ≠ 0x10) := by
      constructor <;> (rintro ⟨a, b, c⟩; simp [a, b, c])
    simp only [e, uninitQuiescedOps, uninitSequence]
  · intro s hs
    refine ⟨postInit4e false ++
      [Op.doEnable g.consts.EB_COMPOSITE_MUX 0,
       Op.doEnable g.consts.EB_ANALOG_INPUT
         (if s.inputSource ≠ InputSource.HDMI then g.consts.EB_ANALOG_INPUT else 0),
       Op.doEnable g.consts.EB_ANALOG_MUX
         (if s.inputSource ≠ InputSource.HDMI then g.consts.EB_ANALOG_MUX else 0)], ?_⟩
    simp [postActivation, M.bind, State.log, Result.state, hs, postInitHandshake]

/-- Witness for C7: bring-up with the HDMI source issues the handshake after
`scmd(SCMD_INIT, 0xa0, 0)`. -/
theorem uninitDevice_operations_witness :
    ∃ rest : List Op,
      (postActivation (sampleSession DeviceType.GameCaptureHD)
        (initialState InputSource.HDMI)).state.trace =
      (initialState InputSource.HDMI).trace ++
        ([Op.transcoderSetup, Op.transcoderOutputEnable true,
          Op.scmd (sampleSession DeviceType.GameCaptureHD).consts.SCMD_INIT 0xa0 0,
          Op.mailWrite 0x44 [0x06, 0x86], Op.mailWrite 0x33 [0x89, 0x89, 0xf8],
          Op.mailRead 0x33 1, Op.mailWrite 0x44 [0x03, 0x2f]] ++ rest) :=
  (uninitDevice_operations (sampleSession DeviceType.GameCaptureHD)
    (simulatedDevice 0 0)).2 (initialState InputSource.HDMI) (by decide)

/-! ## Final dispatch -/

/-- C6, as stated, fails: with the input source Component the final dispatch raises
"unknown input source not allowed" although the source is not Unknown; likewise
for Composite. -/
theorem finalDispatch_component_raises :
    finalDispatch (initialState InputSource.Component) =
      Result.raised Error.unknownInputSource (initialState InputSource.Component) ∧
    finalDispatch (initialState InputSource.Composite) =
      Result.raised Error.unknownInputSource (initialState InputSource.Composite) := by
  decide

/-- C6 (amended): at the final dispatch, if the input source is HDMI then
`configureHDMI` is invoked exactly once and the dispatch returns without error; for
every other input source (Component, Composite and Unknown) no operation is performed
and the "unknown input source not allowed" error is raised. So the error is raised
if and only if the input source is not HDMI. -/
theorem finalDispatch_eq (s : State) :
    (s.inputSource = InputSource.HDMI →
      finalDispatch s = Result.ok () (s.log Op.configureHDMI)) ∧
    (s.inputSource ≠ InputSource.HDMI →
      finalDispatch s = Result.raised Error.unknownInputSource s) ∧
    ((∃ s1, finalDispatch s = Result.raised Error.unknownInputSource s1) ↔
      s.inputSource ≠ InputSource.HDMI) := by
  cases hs : s.inputSource <;> simp [finalDispatch, M.bind, hs]

/-- Witness for the amended C6: the HDMI source. -/
theorem finalDispatch_eq_witness :
    finalDispatch (initialState InputSource.HDMI) =
      Result.ok () ((initialState InputSource.HDMI).log Op.configureHDMI) :=
  (finalDispatch_eq (initialState InputSource.HDMI)).1 rfl

/-! ## Mode probes -/

theorem debyteify_three (b0 b1 b2 : Nat) :
    debyteify [b0, b1, b2] 3 = b0 * 65536 + b1 * 256 + b2 := by
  simp [debyteify]; ring

theorem handshakeBody_eq (g : Session) (dev : Device) (firstTime : Bool) (s : State) :
    handshakeBody g dev firstTime s =
      match classifyMode (debyteify (probeBytes dev s 0x55) 3) with
      | DeviceModePhase.Unprogrammed =>
        Result.ok (firstTime, false)
          { afterProbe s 0x55 with trace := (afterProbe s 0x55).trace ++
              [Op.sendEnableState, Op.enableAnalogInput,
               Op.doEnable g.consts.EB_FIRMWARE_PROCESSOR g.consts.EB_FIRMWARE_PROCESSOR] }
      | DeviceModePhase.EncoderReady => encoderReadyCase g dev firstTime (afterProbe s 0x55)
      | _ => Result.ok (firstTime, false) (afterProbe s 0x55) := by
  unfold handshakeBody classifyMode
  simp only [bind_apply, M.bind, mailWrite_apply, mailRead_apply]
  have e : List.map (fun i => dev.byte (s.log (Op.mailWrite 51 [171, 169, 15, 164, 85])).trace i % 256)
      (List.range 3) = probeBytes dev s 0x55 := rfl
  rw [e]
  by_cases h1 : debyteify (probeBytes dev s 0x55) 3 = 0x334455
  · simp [h1, M.bind, State.log, afterProbe, probePayload]
  · by_cases h2 : debyteify (probeBytes dev s 0x55) 3 = 0x27f97b
    · simp [h2, afterProbe, probePayload]
    · by_cases h3 : debyteify (probeBytes dev s 0x55) 3 = 0x78e045
      · simp [h3, afterProbe, probePayload]
      · simp [h1, h2, h3, afterProbe, probePayload]

theorem activationWait_succ (dev : Device) (fuel : Nat) (s : State) :
    activationWait dev (fuel + 1) s =
      if classifyMode (debyteify (probeBytes dev s 0x5b) 3) = DeviceModePhase.EncoderActive
      then Result.ok () ((afterProbe s 0x5b).log Op.enableAnalogInput)
      else activationWait dev fuel ((afterProbe s 0x5b).log Op.enableAnalogInput) := by
  rw [activationWait]
  simp only [bind_apply, M.bind, mailWrite_apply, mailRead_apply, call_apply]
  have e : List.map (fun i => dev.byte (s.log (Op.mailWrite 51 [171, 169, 15, 164, 91])).trace i % 256)
      (List.range 3) = probeBytes dev s 0x5b := rfl
  rw [e]
  unfold classifyMode
  by_cases h3 : debyteify (probeBytes dev s 0x5b) 3 = 0x78e045
  · simp [h3, afterProbe, probePayload]
  · by_cases h1 : debyteify (probeBytes dev s 0x5b) 3 = 0x334455
    · simp [h1, afterProbe, probePayload]
    · by_cases h2 : debyteify (probeBytes dev s 0x5b) 3 = 0x27f97b
      · simp [h2, afterProbe, probePayload]
      · simp [h1, h2, h3, afterProbe, probePayload]

theorem reconfirmLoop_succ (dev : Device) (fuel : Nat) (s : State) :
    reconfirmLoop dev (fuel + 1) s =
      if classifyMode (debyteify (probeBytes dev s 0x55) 3) = DeviceModePhase.EncoderReady
      then Result.ok () (afterProbe s 0x55)
      else reconfirmLoop dev fuel (afterProbe s 0x55) := by
  rw [reconfirmLoop]
  simp only [bind_apply, M.bind, mailWrite_apply, mailRead_apply, call_apply]
  have e : List.map (fun i => dev.byte (s.log (Op.mailWrite 51 [171, 169, 15, 164, 85])).trace i % 256)
      (List.range 3) = probeBytes dev s 0x55 := rfl
  rw [e]
  unfold classifyMode
  by_cases h2 : debyteify (probeBytes dev s 0x55) 3 = 0x27f97b
  · simp [h2, afterProbe, probePayload]
  · by_cases h1 : debyteify (probeBytes dev s 0x55) 3 = 0x334455
    · simp [h1, afterProbe, probePayload]
    · by_cases h3 : debyteify (probeBytes dev s 0x55) 3 = 0x78e045
      · simp [h3, afterProbe, probePayload]
      · simp [h1, h2, h3, afterProbe, probePayload]

theorem handshakeLoop_succ (g : Session) (dev : Device) (fuel : Nat) (firstTime : Bool)
    (s : State) :
    handshakeLoop g dev (fuel + 1) firstTime s =
      match handshakeBody g dev firstTime s with
      | Result.ok (ft, loopDone) s1 =>
        if loopDone = true then Result.ok () s1 else handshakeLoop g dev fuel ft s1
      | Result.raised e s1 => Result.raised e s1
      | Result.outOfFuel s1 => Result.outOfFuel s1 := by
  rw [handshakeLoop]
  simp only [bind_apply, M.bind]
  cases handshakeBody g dev firstTime s with
  | ok a s1 => obtain ⟨ft, ld⟩ := a; cases ld <;> simp
  | raised e s1 => rfl
  | outOfFuel s1 => rfl

/-! ## Quiet computations -/

theorem quiet_bind {α β : Type} {x : M α} {f : α → M β} (hx : Quiet x)
    (hf : ∀ a, Quiet (f a)) : Quiet (x >>= f) := by
  intro s
  have h := hx s
  simp only [bind_apply, M.bind]
  cases hxs : x s with
  | ok a s1 =>
    rw [hxs] at h
    have h2 := hf a s1
    exact ⟨h.1.trans h2.1, h2.2.1.trans h.2.1, h2.2.2.trans h.2.2⟩
  | raised e s1 => rw [hxs] at h; exact h
  | outOfFuel s1 => rw [hxs] at h; exact h

theorem quiet_pure {α : Type} (a : α) : Quiet (pure a : M α) :=
  fun _ => ⟨List.prefix_refl _, rfl, rfl⟩

theorem quiet_giveUp {α : Type} : Quiet (giveUp : M α) :=
  fun _ => ⟨List.prefix_refl _, rfl, rfl⟩

theorem quiet_raise (e : Error) : Quiet (raise e) :=
  fun _ => ⟨List.prefix_refl _, rfl, rfl⟩

theorem quiet_getInputSource : Quiet getInputSource :=
  fun _ => ⟨List.prefix_refl _, rfl, rfl⟩

theorem quiet_callAll {ops : List Op} (h : ops.filter interesting = []) : Quiet (callAll ops) := by
  intro s
  refine ⟨List.prefix_append _ _, ?_, rfl⟩
  simp [Result.state, h]

theorem quiet_call {op : Op} (h : interesting op = false) : Quiet (call op) := by
  intro s
  refine ⟨List.prefix_append _ _, ?_, rfl⟩
  simp [Result.state, h]

theorem quiet_mailWrite (port : Nat) (payload : List Nat) : Quiet (mailWrite port payload) :=
  quiet_call rfl

theorem quiet_mailRead (dev : Device) (port length : Nat) : Quiet (mailRead dev port length) := by
  intro s
  refine ⟨List.prefix_append _ _, ?_, rfl⟩
  simp [Result.state, interesting]

theorem quiet_read_config (dev : Device) (reg : Nat) : Quiet (read_config dev reg) := by
  intro s
  refine ⟨List.prefix_append _ _, ?_, rfl⟩
  simp [Result.state, interesting]

theorem quiet_completeStateChange (dev : Device) (a b : Nat) :
    Quiet (completeStateChange dev a b) := by
  intro s
  refine ⟨List.prefix_append _ _, ?_, rfl⟩
  simp [Result.state, interesting]

theorem quiet_ite {α : Type} {c : Prop} [Decidable c] {x y : M α} (hx : Quiet x) (hy : Quiet y) :
    Quiet (if c then x else y) := by
  split <;> assumption

theorem quiet_saveEnableState (g : Session) (dev : Device) : Quiet (saveEnableState g dev) := by
  unfold saveEnableState
  exact quiet_bind (quiet_read_config _ _) (fun _ _ => ⟨List.prefix_refl _, rfl, rfl⟩)

theorem quiet_saveEnable (g : Session) (dev : Device) : Quiet (saveEnable g dev) := by
  unfold saveEnable
  exact quiet_bind (quiet_read_config _ _) (fun _ _ => ⟨List.prefix_refl _, rfl, rfl⟩)

theorem quiet_completionPoll (g : Session) (dev : Device) (fuel : Nat) :
    Quiet (completionPoll g dev fuel) := by
  induction fuel with
  | zero => exact quiet_giveUp
  | succ n ih =>
    rw [completionPoll]
    exact quiet_bind (quiet_read_config _ _) (fun _ => quiet_ite ih (quiet_pure _))

theorem quiet_bootState (g : Session) (dev : Device) (fuel : Nat) :
    Quiet (bootState g dev fuel) := by
  unfold bootState
  cases g.deviceType_ with
  | GameCaptureHD => exact quiet_completeStateChange _ _ _
  | GameCaptureHDNew =>
    refine quiet_bind (quiet_read_config _ _) (fun _ => ?_)
    exact quiet_ite
      (quiet_bind (quiet_call rfl) (fun _ => quiet_bind (quiet_completionPoll _ _ _)
        (fun _ => quiet_bind (quiet_call rfl) (fun _ => quiet_pure _))))
      (quiet_bind (quiet_pure _) (fun _ => quiet_pure _))

theorem quiet_activationWait (dev : Device) (fuel : Nat) : Quiet (activationWait dev fuel) := by
  induction fuel with
  | zero => exact quiet_giveUp
  | succ n ih =>
    rw [activationWait]
    exact quiet_bind (quiet_mailWrite _ _) (fun _ => quiet_bind (quiet_mailRead _ _ _)
      (fun _ => quiet_bind (quiet_call rfl) (fun _ => quiet_ite ih (quiet_pure _))))

theorem quiet_reconfirmLoop (dev : Device) (fuel : Nat) : Quiet (reconfirmLoop dev fuel) := by
  induction fuel with
  | zero => exact quiet_giveUp
  | succ n ih =>
    rw [reconfirmLoop]
    exact quiet_bind (quiet_mailWrite _ _) (fun _ => quiet_bind (quiet_mailRead _ _ _)
      (fun _ => quiet_ite ih (quiet_pure _)))

theorem quiet_ackPoll (dev : Device) (fuel : Nat) : Quiet (ackPoll dev fuel) := by
  induction fuel with
  | zero => exact quiet_giveUp
  | succ n ih =>
    rw [ackPoll]
    exact quiet_bind (quiet_mailWrite _ _) (fun _ => quiet_bind (quiet_mailRead _ _ _)
      (fun _ => quiet_ite ih (quiet_pure _)))

set_option maxRecDepth 100000 in
theorem calibrationTail_quiet (deviceType_ : DeviceType) (analog : Bool) :
    (calibrationTail deviceType_ analog).filter interesting = [] := by
  cases deviceType_ <;> cases analog <;> rfl

theorem quiet_calibrationReplay (g : Session) (dev : Device) (fuel : Nat) :
    Quiet (calibrationReplay g dev fuel) := by
  unfold calibrationReplay
  exact quiet_bind (quiet_callAll rfl) (fun _ => quiet_bind (quiet_call rfl)
    (fun _ => quiet_bind (quiet_ackPoll _ _) (fun _ => quiet_bind (quiet_call rfl)
      (fun _ => quiet_bind quiet_getInputSource
        (fun _ => quiet_callAll (calibrationTail_quiet _ _))))))

theorem postInit_quiet (composite : Bool) :
    (postInitHandshake composite).filter interesting = [] ∧
    (postInit4e composite).filter interesting = [] := by
  cases composite <;> exact ⟨rfl, rfl⟩

theorem quiet_postActivation (g : Session) : Quiet (postActivation g) := by
  unfold postActivation
  exact quiet_bind (quiet_call rfl) (fun _ => quiet_bind (quiet_call rfl)
    (fun _ => quiet_bind quiet_getInputSource (fun _ => quiet_bind quiet_getInputSource
      (fun _ => quiet_bind (quiet_call rfl) (fun _ => quiet_bind
        (quiet_callAll (postInit_quiet _).1) (fun _ => quiet_bind
          (quiet_callAll (postInit_quiet _).2) (fun _ => quiet_bind (quiet_call rfl)
            (fun _ => quiet_bind (quiet_call rfl) (fun _ => quiet_call rfl)))))))))

/-! ## Summaries of runs -/

theorem Quiet.summary {α : Type} {f : M α} (h : Quiet f) (s : State) : Summary [] s (f s) :=
  ⟨(h s).1, fun _ => (h s).2.2, [], List.prefix_refl _, by simp [(h s).2.1], fun _ => rfl⟩

theorem Summary.mono {α : Type} {full : List Op} {s : State} {r : Result α}
    (h : Summary full s r) (more : List Op) (hr : r.isOk = false) :
    Summary (full ++ more) s r := by
  obtain ⟨h1, h2, seg, h3, h4, _⟩ := h
  exact ⟨h1, h2, seg, h3.trans (List.prefix_append _ _), h4, fun h => by simp [hr] at h⟩

theorem summary_bind {α β : Type} {x : M α} {f : α → M β} {fx ff : List Op} {s : State}
    (hx : Summary fx s (x s))
    (hf : ∀ a s1, x s = Result.ok a s1 → Summary ff s1 (f a s1)) :
    Summary (fx ++ ff) s ((x >>= f) s) := by
  simp only [bind_apply, M.bind]
  cases hxs : x s with
  | ok a s1 =>
    rw [hxs] at hx
    obtain ⟨p1, k1, seg1, q1, e1, f1⟩ := hx
    obtain ⟨p2, k2, seg2, q2, e2, f2⟩ := hf a s1 hxs
    have hseg1 : seg1 = fx := f1 rfl
    subst hseg1
    refine ⟨p1.trans p2, ?_, seg1 ++ seg2, ?_, ?_, ?_⟩
    · intro hu
      have e := k1 hu
      simp only [Result.state] at e
      rw [k2 (by rw [e]; exact hu), e]
    · exact (List.prefix_append_right_inj seg1).2 q2
    · simp only [Result.state] at e1
      rw [e2, e1, List.append_assoc]
    · intro hok
      rw [f2 hok]
  | raised e s1 =>
    rw [hxs] at hx
    exact hx.mono ff rfl
  | outOfFuel s1 =>
    rw [hxs] at hx
    exact hx.mono ff rfl

theorem summary_quiet_bind {α β : Type} {x : M α} {f : α → M β} {ff : List Op} {s : State}
    (hx : Quiet x)
    (hf : ∀ a s1, x s = Result.ok a s1 → Summary ff s1 (f a s1)) :
    Summary ff s ((x >>= f) s) := by
  have := summary_bind (hx.summary s) hf
  simpa using this

/-! ## The handshake loop -/

theorem encoderReadyCase_false (g : Session) (dev : Device) (s : State) :
    encoderReadyCase g dev false s = Result.ok (false, true) (s.log Op.enableAnalogInput) := by
  simp [encoderReadyCase, M.bind]

/-- The operations of the first EncoderReady visit after the optional detection. -/
theorem encoderReadyCase_true (g : Session) (dev : Device) (s : State) :
    encoderReadyCase g dev true s =
      match resolveSource s.inputSource dev.specialDetectMask with
      | some src =>
        Result.ok (false, false)
          { s with
            inputSource := src
            trace := s.trace ++ commitOps s.inputSource dev.specialDetectMask ++
              [Op.enableAnalogInput, Op.transcoderDefaultsInitialize,
               Op.scmd g.consts.SCMD_INIT 0x00 0x0000, Op.dlfirm g.firmwareEnc_,
               Op.read_config3 0xbc 0x0000 0x0010, Op.read_config3 0xbc 0x0000 0x0012,
               Op.read_config3 0xbc 0x0000 0x0014, Op.read_config3 0xbc 0x0000 0x0016] }
      | none => Result.raised Error.badCableDetectionCode s := by
  unfold encoderReadyCase resolveSource commitOps
  by_cases hu : s.inputSource = InputSource.Unknown
  · simp only [bind_apply, M.bind, getInputSource_apply, hu, and_self, if_true, autoDetect_eq]
    cases hd : detectRule dev.specialDetectMask with
    | none => simp
    | some src => simp [State.log]
  · simp [M.bind, hu, State.log]

theorem quiet_handshakeBody_false (g : Session) (dev : Device) :
    Quiet (handshakeBody g dev false) := by
  intro s
  rw [handshakeBody_eq]
  cases classifyMode (debyteify (probeBytes dev s 0x55) 3) <;>
    simp [encoderReadyCase_false, Result.state, afterProbe, interesting, State.log]

theorem handshakeBody_false_fst (g : Session) (dev : Device) (s s1 : State) (a : Bool × Bool)
    (h : handshakeBody g dev false s = Result.ok a s1) : a.1 = false := by
  rw [handshakeBody_eq] at h
  cases hc : classifyMode (debyteify (probeBytes dev s 0x55) 3) <;> rw [hc] at h <;>
    simp [encoderReadyCase_false] at h <;> simp [← h.1]

theorem quiet_handshakeLoop_false (g : Session) (dev : Device) (fuel : Nat) :
    Quiet (handshakeLoop g dev fuel false) := by
  induction fuel with
  | zero => exact quiet_giveUp
  | succ n ih =>
    rw [handshakeLoop]
    intro s
    have hq := quiet_handshakeBody_false g dev s
    simp only [bind_apply, M.bind]
    cases hb : handshakeBody g dev false s with
    | ok a s1 =>
      rw [hb] at hq
      have ha := handshakeBody_false_fst g dev s s1 a hb
      obtain ⟨ft, ld⟩ := a
      simp only at ha
      subst ha
      cases ld
      · have h2 := ih s1
        simp only [Bool.false_eq_true, ↓reduceIte]
        exact ⟨hq.1.trans h2.1, h2.2.1.trans hq.2.1, h2.2.2.trans hq.2.2⟩
      · simpa using hq
    | raised e s1 => rw [hb] at hq; exact hq
    | outOfFuel s1 => rw [hb] at hq; exact hq

theorem Summary.of_step {α : Type} {full : List Op} {s s1 : State} {r : Result α}
    (hp : s.trace <+: s1.trace)
    (hf : s1.trace.filter interesting = s.trace.filter interesting)
    (hi : s1.inputSource = s.inputSource) (h : Summary full s1 r) : Summary full s r := by
  obtain ⟨p, k, seg, q, e, f⟩ := h
  exact ⟨hp.trans p, fun hu => by rw [k (by rw [hi]; exact hu), hi], seg, q, by rw [e, hf], f⟩

theorem commitOps_filter (src : InputSource) (mask : Nat) :
    (commitOps src mask).filter interesting = commitOps src mask := by
  unfold commitOps
  split
  · cases detectRule mask <;> simp [interesting]
  · rfl

/-- The handshake loop entered with `firstTime = true`: it adds the optional
`setInputSource` and then `dlfirm(enc)`, and a normal exit leaves the resolved
input source. -/
theorem handshakeLoop_true (g : Session) (dev : Device) (fuel : Nat) (s : State) :
    Summary (commitOps s.inputSource dev.specialDetectMask ++ [Op.dlfirm g.firmwareEnc_]) s
      (handshakeLoop g dev fuel true s) ∧
    (∀ u s1, handshakeLoop g dev fuel true s = Result.ok u s1 →
      resolveSource s.inputSource dev.specialDetectMask = some s1.inputSource) := by
  induction fuel generalizing s with
  | zero =>
    refine ⟨⟨List.prefix_refl _, fun _ => rfl, [], List.nil_prefix, by simp [handshakeLoop, Result.state],
      fun h => by simp [handshakeLoop, Result.isOk] at h⟩, ?_⟩
    intro u s1 h
    simp [handshakeLoop] at h
  | succ n ih =>
    have quietStep : ∀ s1 : State, s.trace <+: s1.trace →
        s1.trace.filter interesting = s.trace.filter interesting →
        s1.inputSource = s.inputSource →
        Summary (commitOps s.inputSource dev.specialDetectMask ++ [Op.dlfirm g.firmwareEnc_]) s
          (handshakeLoop g dev n true s1) ∧
        (∀ u s2, handshakeLoop g dev n true s1 = Result.ok u s2 →
          resolveSource s.inputSource dev.specialDetectMask = some s2.inputSource) := by
      intro s1 hp hf hi
      have h := ih s1
      rw [hi] at h
      exact ⟨h.1.of_step hp hf hi, h.2⟩
    have pp : s.trace <+: (afterProbe s 0x55).trace := by
      simp [afterProbe, State.log]
    have pf : (afterProbe s 0x55).trace.filter interesting = s.trace.filter interesting := by
      simp [afterProbe, State.log, interesting]
    rw [handshakeLoop_succ, handshakeBody_eq]
    cases hc : classifyMode (debyteify (probeBytes dev s 0x55) 3) with
    | Unprogrammed =>
      simp only [Bool.false_eq_true, ↓reduceIte]
      apply quietStep
      · exact pp.trans (List.prefix_append _ _)
      · simp [pf, interesting]
      · rfl
    | ProcessorEnabled =>
      simp only [Bool.false_eq_true, ↓reduceIte]
      exact quietStep _ pp pf rfl
    | EncoderActive =>
      simp only [Bool.false_eq_true, ↓reduceIte]
      exact quietStep _ pp pf rfl
    | Unrecognized code =>
      simp only [Bool.false_eq_true, ↓reduceIte]
      exact quietStep _ pp pf rfl
    | EncoderReady =>
      simp only [encoderReadyCase_true]
      have hsrc : (afterProbe s 0x55).inputSource = s.inputSource := rfl
      rw [hsrc]
      cases hr : resolveSource s.inputSource dev.specialDetectMask with
      | none =>
        simp only
        refine ⟨⟨pp, fun _ => rfl, [], List.nil_prefix, by simp [Result.state, pf],
          fun h => by simp [Result.isOk] at h⟩, ?_⟩
        intro u s1 h
        cases h
      | some src =>
        simp only [Bool.false_eq_true, ↓reduceIte]
        generalize hs2 : ({ afterProbe s 0x55 with
            inputSource := src
            trace := (afterProbe s 0x55).trace ++ commitOps s.inputSource dev.specialDetectMask ++
              [Op.enableAnalogInput, Op.transcoderDefaultsInitialize,
               Op.scmd g.consts.SCMD_INIT 0x00 0x0000, Op.dlfirm g.firmwareEnc_,
               Op.read_config3 0xbc 0x0000 0x0010, Op.read_config3 0xbc 0x0000 0x0012,
               Op.read_config3 0xbc 0x0000 0x0014, Op.read_config3 0xbc 0x0000 0x0016] } : State) = s2
        have q := quiet_handshakeLoop_false g dev n s2
        have t2 : s2.trace = (afterProbe s 0x55).trace ++ commitOps s.inputSource dev.specialDetectMask ++
              [Op.enableAnalogInput, Op.transcoderDefaultsInitialize,
               Op.scmd g.consts.SCMD_INIT 0x00 0x0000, Op.dlfirm g.firmwareEnc_,
               Op.read_config3 0xbc 0x0000 0x0010, Op.read_config3 0xbc 0x0000 0x0012,
               Op.read_config3 0xbc 0x0000 0x0014, Op.read_config3 0xbc 0x0000 0x0016] := by
          rw [← hs2]
        have i2 : s2.inputSource = src := by rw [← hs2]
        refine ⟨⟨?_, ?_, commitOps s.inputSource dev.specialDetectMask ++ [Op.dlfirm g.firmwareEnc_],
          List.prefix_refl _, ?_, fun _ => rfl⟩, ?_⟩
        · refine List.IsPrefix.trans ?_ q.1
          rw [t2, List.append_assoc]
          exact pp.trans (List.prefix_append _ _)
        · intro hu
          rw [q.2.2, i2]
          simp [resolveSource, hu] at hr
          exact hr.symm
        · rw [q.2.1, t2]
          simp [pf, commitOps_filter, interesting]
        · intro u s1 h
          have e := q.2.2
          rw [h] at e
          simp only [Result.state] at e
          rw [e, i2]

/-! ## The whole of bring-up -/

theorem endsWithHDMI_bind {α β : Type} {x : M α} {f : α → M β} {s : State}
    (hf : ∀ a s1, x s = Result.ok a s1 → EndsWithHDMI (f a s1)) :
    EndsWithHDMI ((x >>= f) s) := by
  intro u s2 h
  simp only [bind_apply, M.bind] at h
  cases hxs : x s with
  | ok a s1 => rw [hxs] at h; exact hf a s1 hxs u s2 h
  | raised e s1 => rw [hxs] at h; cases h
  | outOfFuel s1 => rw [hxs] at h; cases h

theorem bootState_value (g : Session) (dev : Device) (fuel : Nat) (s s1 : State) (a : Nat)
    (h : bootState g dev fuel s = Result.ok a s1) :
    a = match g.deviceType_ with
        | DeviceType.GameCaptureHD => dev.word s.trace % 65536
        | DeviceType.GameCaptureHDNew => (dev.word s.trace % 65536) &&& 0x1f := by
  unfold bootState at h
  cases hd : g.deviceType_ with
  | GameCaptureHD =>
    rw [hd] at h
    simp only [completeStateChange_apply, Result.ok.injEq] at h
    exact h.1.symm
  | GameCaptureHDNew =>
    rw [hd] at h
    simp only [bind_apply, M.bind, read_config_apply] at h
    split at h
    · simp only [bind_apply, M.bind, call_apply, pure_apply] at h
      split at h
      · simp only [Result.ok.injEq] at h
        exact h.1.symm
      · cases h
      · cases h
    · simp only [bind_apply, M.bind, pure_apply, Result.ok.injEq] at h
      exact h.1.symm

theorem flashOrReset_ok (g : Session) (dev : Device) (state : Nat) (s : State) :
    ∃ s1, flashOrReset g dev state s = Result.ok () s1 ∧ s.trace <+: s1.trace ∧
      s1.trace.filter interesting = s.trace.filter interesting ++ flashOps g state ∧
      s1.inputSource = s.inputSource := by
  unfold flashOrReset flashOps
  by_cases h : state = 0
  · simp [h, M.bind, saveEnableState, saveEnable, State.log, interesting, flashVerificationReads]
  · simp [h, M.bind, State.log, interesting]

theorem finalDispatch_summary (s : State) :
    Summary [Op.configureHDMI] s (finalDispatch s) ∧ EndsWithHDMI (finalDispatch s) := by
  cases hs : s.inputSource <;>
    simp [finalDispatch, M.bind, hs, Summary, EndsWithHDMI, Result.state, Result.isOk,
      State.log, interesting]

theorem Quiet.inputSource_eq {α : Type} {x : M α} (h : Quiet x) {s s1 : State} {a : α}
    (hx : x s = Result.ok a s1) : s1.inputSource = s.inputSource := by
  have e := (h s).2.2
  rw [hx] at e
  exact e

theorem configureDevice_endsWithHDMI (g : Session) (dev : Device) (fuel : Nat) (s : State) :
    EndsWithHDMI (configureDevice g dev fuel s) := by
  unfold configureDevice
  repeat first | exact (finalDispatch_summary _).2 | refine endsWithHDMI_bind (fun _ _ _ => ?_)

theorem configureDevice_summary (g : Session) (dev : Device) (fuel : Nat) (s : State) :
    Summary (bringUpOps g dev s) s (configureDevice g dev fuel s) := by
  unfold configureDevice bringUpOps
  refine summary_quiet_bind (quiet_call rfl) (fun _ s1 h1 => ?_)
  simp only [call_apply, Result.ok.injEq, true_and] at h1
  subst h1
  refine summary_quiet_bind (quiet_call rfl) (fun _ s2 h2 => ?_)
  simp only [call_apply, Result.ok.injEq, true_and] at h2
  subst h2
  refine summary_quiet_bind (quiet_saveEnableState g dev) (fun _ s3 h3 => ?_)
  simp only [saveEnableState, bind_apply, M.bind, read_config_apply, Result.ok.injEq,
    true_and] at h3
  subst h3
  refine summary_quiet_bind (quiet_bootState g dev fuel) (fun state s4 h4 => ?_)
  have hv : state = bootValue g dev s := by
    rw [bootState_value g dev fuel _ _ _ h4]
    simp [bootValue, State.log]
  have i4 := (quiet_bootState g dev fuel).inputSource_eq h4
  simp only [log_inputSource] at i4
  subst hv
  obtain ⟨s5, e5, p5, f5, i5⟩ := flashOrReset_ok g dev (bootValue g dev s) s4
  refine summary_bind ?_ (fun _ s5a h5 => ?_)
  · rw [e5]
    exact ⟨p5, fun _ => i5, _, List.prefix_refl _, f5, fun _ => rfl⟩
  rw [e5] at h5
  simp only [Result.ok.injEq, true_and] at h5
  subst h5
  refine summary_quiet_bind (quiet_mailWrite _ _) (fun _ s6 h6 => ?_)
  have i6 := (quiet_mailWrite _ _).inputSource_eq h6
  refine summary_quiet_bind (quiet_mailRead _ _ _) (fun _ s7 h7 => ?_)
  have i7 := (quiet_mailRead _ _ _).inputSource_eq h7
  have hsrc : s7.inputSource = s.inputSource := by rw [i7, i6, i5, i4]
  rw [← hsrc]
  refine summary_bind (handshakeLoop_true g dev fuel s7).1 (fun _ s8 _ => ?_)
  refine summary_quiet_bind (quiet_activationWait _ _) (fun _ s9 _ => ?_)
  refine summary_quiet_bind (quiet_call rfl) (fun _ s10 _ => ?_)
  refine summary_quiet_bind (quiet_reconfirmLoop _ _) (fun _ s11 _ => ?_)
  refine summary_quiet_bind (quiet_calibrationReplay _ _ _) (fun _ s12 _ => ?_)
  refine summary_quiet_bind (quiet_activationWait _ _) (fun _ s13 _ => ?_)
  refine summary_quiet_bind (quiet_postActivation _) (fun _ s14 _ => ?_)
  exact (finalDispatch_summary _).1

/-- From a summary: the operations of the run, filtered. -/
theorem Summary.opsOf {α : Type} {full : List Op} {s : State} {r : Result α}
    (h : Summary full s r) :
    r.state.trace = s.trace ++ opsOf s r ∧
    (opsOf s r).filter interesting <+: full ∧
    (r.isOk = true → (opsOf s r).filter interesting = full) := by
  obtain ⟨⟨δ, hδ⟩, _, seg, q, e, f⟩ := h
  have ho : GCHD.opsOf s r = δ := by
    unfold GCHD.opsOf
    rw [← hδ]
    simp
  rw [ho]
  have hs : δ.filter interesting = seg := by
    rw [← hδ, List.filter_append] at e
    exact List.append_cancel_left e
  rw [hs]
  exact ⟨hδ.symm, q, f⟩

theorem countP_isSetInputSource_filter (l : List Op) :
    (l.filter interesting).countP isSetInputSource = l.countP isSetInputSource := by
  rw [List.countP_filter]
  congr 1
  funext a
  cases a <;> rfl

theorem filter_isDlfirm_filter (l : List Op) :
    (l.filter interesting).filter isDlfirm = l.filter isDlfirm := by
  rw [List.filter_filter]
  congr 1
  funext a
  cases a <;> rfl

theorem countP_isConfigureHDMI_filter (l : List Op) :
    (l.filter interesting).countP isConfigureHDMI = l.countP isConfigureHDMI := by
  rw [List.countP_filter]
  congr 1
  funext a
  cases a <;> rfl

theorem commitOps_count (src : InputSource) (mask : Nat) :
    (commitOps src mask).countP isSetInputSource ≤ 1 ∧
    (src ≠ InputSource.Unknown → commitOps src mask = []) ∧
    (commitOps src mask).filter isDlfirm = [] ∧
    (commitOps src mask).countP isConfigureHDMI = 0 := by
  unfold commitOps
  by_cases h : src = InputSource.Unknown
  · cases detectRule mask <;> simp [h, isSetInputSource, isDlfirm, isConfigureHDMI]
  · simp [h]

theorem bringUpOps_count (g : Session) (dev : Device) (s : State) :
    (bringUpOps g dev s).countP isSetInputSource ≤ 1 ∧
    (s.inputSource ≠ InputSource.Unknown →
      (bringUpOps g dev s).countP isSetInputSource = 0) := by
  have h := commitOps_count s.inputSource dev.specialDetectMask
  have e : (bringUpOps g dev s).countP isSetInputSource =
      (commitOps s.inputSource dev.specialDetectMask).countP isSetInputSource := by
    unfold bringUpOps flashOps
    split <;> simp [List.countP_append, isSetInputSource]
  rw [e]
  refine ⟨h.1, fun hu => ?_⟩
  rw [h.2.1 hu]
  rfl

/-- C5: in every run of `configureDevice`, whatever its outcome, `setInputSource` is
called at most once; if the caller pre-selected an input source other than Unknown
it is never called and the input source at the end is the pre-selected one, for
every device and detection mask. -/
theorem setInputSource_at_most_once (g : Session) (dev : Device) (fuel : Nat) (s : State) :
    (opsOf s (configureDevice g dev fuel s)).countP isSetInputSource ≤ 1 ∧
    (s.inputSource ≠ InputSource.Unknown →
      (opsOf s (configureDevice g dev fuel s)).countP isSetInputSource = 0 ∧
      (configureDevice g dev fuel s).state.inputSource = s.inputSource) := by
  have hs := configureDevice_summary g dev fuel s
  have ho := hs.opsOf
  have hc := bringUpOps_count g dev s
  have hle : (opsOf s (configureDevice g dev fuel s)).countP isSetInputSource ≤
      (bringUpOps g dev s).countP isSetInputSource := by
    rw [← countP_isSetInputSource_filter]
    exact ho.2.1.sublist.countP_le _
  refine ⟨hle.trans hc.1, fun hu => ⟨?_, hs.2.1 hu⟩⟩
  have := hc.2 hu
  omega

/-- Witness for C5: a run with the Component source pre-selected and a mask that
would select Composite. -/
theorem setInputSource_at_most_once_witness :
    (opsOf (initialState InputSource.Component)
      (configureDevice (sampleSession DeviceType.GameCaptureHD) (simulatedDevice 0 0xffff) 2
        (initialState InputSource.Component))).countP isSetInputSource = 0 ∧
    (configureDevice (sampleSession DeviceType.GameCaptureHD) (simulatedDevice 0 0xffff) 2
      (initialState InputSource.Component)).state.inputSource =
      (initialState InputSource.Component).inputSource :=
  (setInputSource_at_most_once (sampleSession DeviceType.GameCaptureHD)
    (simulatedDevice 0 0xffff) 2 (initialState InputSource.Component)).2 (by decide)

theorem filter_isSetInputSource_filter (l : List Op) :
    (l.filter interesting).filter isSetInputSource = l.filter isSetInputSource := by
  rw [List.filter_filter]
  congr 1
  funext a
  cases a <;> rfl

set_option maxRecDepth 100000 in
/-- C4, as stated, fails: on RevisionA with the source Unknown and a mask selecting
HDMI, a device that is already up (`completeStateChange(0, 0)` answers `1`) makes
bring-up return having called `dlfirm` once only, with the encoder firmware. -/
theorem configureDevice_already_up_one_dlfirm :
    detectRule (simulatedDevice 1 0).specialDetectMask = some InputSource.HDMI ∧
    (configureDevice (sampleSession DeviceType.GameCaptureHD) (simulatedDevice 1 0) 2
      (initialState InputSource.Unknown)).isOk = true ∧
    (opsOf (initialState InputSource.Unknown)
      (configureDevice (sampleSession DeviceType.GameCaptureHD) (simulatedDevice 1 0) 2
        (initialState InputSource.Unknown))).filter isDlfirm =
      [Op.dlfirm (sampleSession DeviceType.GameCaptureHD).firmwareEnc_] :=
  ⟨rfl, rfl, rfl⟩

/-- C4 (amended): for RevisionA with the input source initially Unknown and a
detection mask that selects HDMI, every run of `configureDevice` that returns ends
with the input source HDMI, has committed it by one `setInputSource(HDMI)` and has
called `configureHDMI` exactly once, as its last operation; it has called `dlfirm`
with the idle image and then with the encoder image, once each, when
`completeStateChange(0, 0)` answered state 0, and with the encoder image only when
the device was already up. -/
theorem configureDevice_hdmi_run (g : Session) (dev : Device) (fuel : Nat) (s s1 : State)
    (hA : g.deviceType_ = DeviceType.GameCaptureHD)
    (hU : s.inputSource = InputSource.Unknown)
    (hm : detectRule dev.specialDetectMask = some InputSource.HDMI)
    (hr : configureDevice g dev fuel s = Result.ok () s1) :
    s1.inputSource = InputSource.HDMI ∧
    (opsOf s (configureDevice g dev fuel s)).filter isDlfirm =
      (if dev.word (s.trace ++ [Op.readVersion, Op.write_config g.consts.BANKSEL 0x0000,
            Op.read_config g.consts.MAIL_SEND_ENABLE_REGISTER_STATE]) % 65536 = 0
       then [Op.dlfirm g.firmwareIdle_, Op.dlfirm g.firmwareEnc_]
       else [Op.dlfirm g.firmwareEnc_]) ∧
    (opsOf s (configureDevice g dev fuel s)).filter isSetInputSource =
      [Op.setInputSource InputSource.HDMI] ∧
    (opsOf s (configureDevice g dev fuel s)).countP isConfigureHDMI = 1 ∧
    (opsOf s (configureDevice g dev fuel s)).getLast? = some Op.configureHDMI := by
  have hs := (configureDevice_summary g dev fuel s).opsOf
  have he := configureDevice_endsWithHDMI g dev fuel s () s1 hr
  have hok : (configureDevice g dev fuel s).isOk = true := by rw [hr]; rfl
  have hf := hs.2.2 hok
  have hc : commitOps s.inputSource dev.specialDetectMask =
      [Op.setInputSource InputSource.HDMI] := by
    simp [commitOps, hU, hm]
  have hb : bootValue g dev s = dev.word (s.trace ++ [Op.readVersion,
      Op.write_config g.consts.BANKSEL 0x0000,
      Op.read_config g.consts.MAIL_SEND_ENABLE_REGISTER_STATE]) % 65536 := by
    simp [bootValue, hA]
  rw [← hb]
  refine ⟨he.1, ?_, ?_, ?_, ?_⟩
  · rw [← filter_isDlfirm_filter, hf]
    unfold bringUpOps flashOps
    split <;> simp [List.filter_append, hc, isDlfirm]
  · rw [← filter_isSetInputSource_filter, hf]
    unfold bringUpOps flashOps
    split <;> simp [List.filter_append, hc, isSetInputSource]
  · rw [← countP_isConfigureHDMI_filter, hf]
    unfold bringUpOps flashOps
    split <;> simp [List.countP_append, hc, isConfigureHDMI]
  · have hst : (configureDevice g dev fuel s).state = s1 := by rw [hr]; rfl
    have ht := hs.1
    rw [hst] at ht
    have hne : opsOf s (configureDevice g dev fuel s) ≠ [] := by
      intro h0
      rw [h0] at hf
      unfold bringUpOps at hf
      simp at hf
    have hl := he.2
    rw [ht, List.getLast?_append_of_ne_nil _ hne] at hl
    exact hl

set_option maxRecDepth 100000 in
/-- Witness for the amended C4: RevisionA, source Unknown, mask `0` (no cable, no
HDMI signal: the default HDMI), boot state 0. -/
theorem configureDevice_hdmi_run_witness :
    (configureDevice (sampleSession DeviceType.GameCaptureHD) (simulatedDevice 0 0) 2
      (initialState InputSource.Unknown)).state.inputSource = InputSource.HDMI ∧
    (opsOf (initialState InputSource.Unknown)
      (configureDevice (sampleSession DeviceType.GameCaptureHD) (simulatedDevice 0 0) 2
        (initialState InputSource.Unknown))).filter isDlfirm =
      [Op.dlfirm (sampleSession DeviceType.GameCaptureHD).firmwareIdle_,
       Op.dlfirm (sampleSession DeviceType.GameCaptureHD).firmwareEnc_] ∧
    (opsOf (initialState InputSource.Unknown)
      (configureDevice (sampleSession DeviceType.GameCaptureHD) (simulatedDevice 0 0) 2
        (initialState InputSource.Unknown))).filter isSetInputSource =
      [Op.setInputSource InputSource.HDMI] ∧
    (opsOf (initialState InputSource.Unknown)
      (configureDevice (sampleSession DeviceType.GameCaptureHD) (simulatedDevice 0 0) 2
        (initialState InputSource.Unknown))).countP isConfigureHDMI = 1 ∧
    (opsOf (initialState InputSource.Unknown)
      (configureDevice (sampleSession DeviceType.GameCaptureHD) (simulatedDevice 0 0) 2
        (initialState InputSource.Unknown))).getLast? = some Op.configureHDMI :=
  configureDevice_hdmi_run (sampleSession DeviceType.GameCaptureHD) (simulatedDevice 0 0) 2
    (initialState InputSource.Unknown)
    (configureDevice (sampleSession DeviceType.GameCaptureHD) (simulatedDevice 0 0) 2
      (initialState InputSource.Unknown)).state rfl rfl rfl rfl

/-! ## Classification of probe answers -/

theorem afterProbe_trace (s : State) (last : Nat) :
    (afterProbe s last).trace =
      s.trace ++ [Op.mailWrite 0x33 (probePayload last), Op.mailRead 0x33 3] := by
  simp [afterProbe, State.log]

theorem handshakeLoop_extends (g : Session) (dev : Device) (fuel : Nat) (firstTime : Bool)
    (s : State) : s.trace <+: (handshakeLoop g dev fuel firstTime s).state.trace := by
  cases firstTime with
  | false => exact (quiet_handshakeLoop_false g dev fuel s).1
  | true => exact (handshakeLoop_true g dev fuel s).1.1

theorem handshakeLoop_succ_extends (g : Session) (dev : Device) (fuel : Nat) (firstTime : Bool)
    (s : State) :
    (afterProbe s 0x55).trace <+: (handshakeLoop g dev (fuel + 1) firstTime s).state.trace := by
  rw [handshakeLoop_succ, handshakeBody_eq]
  have step : ∀ (ft : Bool) (s1 : State), (afterProbe s 0x55).trace <+: s1.trace →
      (afterProbe s 0x55).trace <+:
        (if false = true then Result.ok () s1 else handshakeLoop g dev fuel ft s1).state.trace := by
    intro ft s1 h
    simp only [Bool.false_eq_true, ↓reduceIte]
    exact h.trans (handshakeLoop_extends g dev fuel ft s1)
  cases hc : classifyMode (debyteify (probeBytes dev s 0x55) 3) with
  | Unprogrammed => exact step _ _ (List.prefix_append _ _)
  | ProcessorEnabled => exact step _ _ (List.prefix_refl _)
  | EncoderActive => exact step _ _ (List.prefix_refl _)
  | Unrecognized code => exact step _ _ (List.prefix_refl _)
  | EncoderReady =>
    cases firstTime with
    | false =>
      simp only [encoderReadyCase_false, ↓reduceIte, Result.state, log_trace]
      exact List.prefix_append _ _
    | true =>
      simp only [encoderReadyCase_true]
      cases resolveSource (afterProbe s 0x55).inputSource dev.specialDetectMask with
      | none => exact List.prefix_refl _
      | some src =>
        refine step _ _ ?_
        simp only [List.append_assoc]
        exact List.prefix_append _ _

/-- C8: the three bytes answered to a mode probe are read as the big-endian
24-bit integer `b0 * 65536 + b1 * 256 + b2`, and every polling loop of bring-up
reacts to the answer through the lookup `classifyMode` of that integer alone: the
handshake loop acts on Unprogrammed (`0x334455`) and EncoderReady (`0x27f97b`), the
activation wait ends on EncoderActive (`0x78e045`), the re-confirm loop ends on
EncoderReady; to an Unrecognized value the handshake loop reacts with nothing but
another probe. -/
theorem modeProbe_lookup (g : Session) (dev : Device) :
    (∀ b0 b1 b2 : Nat, debyteify [b0, b1, b2] 3 = b0 * 65536 + b1 * 256 + b2) ∧
    (∀ (firstTime : Bool) (s : State), handshakeBody g dev firstTime s =
      match classifyMode (debyteify (probeBytes dev s 0x55) 3) with
      | DeviceModePhase.Unprogrammed =>
        Result.ok (firstTime, false)
          { afterProbe s 0x55 with trace := (afterProbe s 0x55).trace ++
              [Op.sendEnableState, Op.enableAnalogInput,
               Op.doEnable g.consts.EB_FIRMWARE_PROCESSOR g.consts.EB_FIRMWARE_PROCESSOR] }
      | DeviceModePhase.EncoderReady => encoderReadyCase g dev firstTime (afterProbe s 0x55)
      | _ => Result.ok (firstTime, false) (afterProbe s 0x55)) ∧
    (∀ (fuel : Nat) (s : State), activationWait dev (fuel + 1) s =
      if classifyMode (debyteify (probeBytes dev s 0x5b) 3) = DeviceModePhase.EncoderActive
      then Result.ok () ((afterProbe s 0x5b).log Op.enableAnalogInput)
      else activationWait dev fuel ((afterProbe s 0x5b).log Op.enableAnalogInput)) ∧
    (∀ (fuel : Nat) (s : State), reconfirmLoop dev (fuel + 1) s =
      if classifyMode (debyteify (probeBytes dev s 0x55) 3) = DeviceModePhase.EncoderReady
      then Result.ok () (afterProbe s 0x55)
      else reconfirmLoop dev fuel (afterProbe s 0x55)) ∧
    (∀ (fuel : Nat) (firstTime : Bool) (s : State) (code : Nat),
      classifyMode (debyteify (probeBytes dev s 0x55) 3) = DeviceModePhase.Unrecognized code →
      handshakeLoop g dev (fuel + 2) firstTime s =
        handshakeLoop g dev (fuel + 1) firstTime (afterProbe s 0x55) ∧
      ∃ rest : List Op,
        (handshakeLoop g dev (fuel + 2) firstTime s).state.trace =
          s.trace ++ [Op.mailWrite 0x33 (probePayload 0x55), Op.mailRead 0x33 3] ++
            [Op.mailWrite 0x33 (probePayload 0x55), Op.mailRead 0x33 3] ++ rest) := by
  refine ⟨debyteify_three, handshakeBody_eq g dev, activationWait_succ dev,
    reconfirmLoop_succ dev, ?_⟩
  intro fuel firstTime s code hc
  have e : handshakeLoop g dev (fuel + 2) firstTime s =
      handshakeLoop g dev (fuel + 1) firstTime (afterProbe s 0x55) := by
    rw [handshakeLoop_succ, handshakeBody_eq, hc]
    simp
  refine ⟨e, ?_⟩
  obtain ⟨rest, hrest⟩ := handshakeLoop_succ_extends g dev fuel firstTime (afterProbe s 0x55)
  refine ⟨rest, ?_⟩
  rw [e, ← hrest, afterProbe_trace, afterProbe_trace]

/-- Witness for C8: the silent device answers the unrecognized code `0`. -/
theorem modeProbe_lookup_witness :
    handshakeLoop (sampleSession DeviceType.GameCaptureHD) silentDevice (0 + 2)
        true (initialState InputSource.HDMI) =
      handshakeLoop (sampleSession DeviceType.GameCaptureHD) silentDevice (0 + 1)
        true (afterProbe (initialState InputSource.HDMI) 0x55) :=
  ((modeProbe_lookup (sampleSession DeviceType.GameCaptureHD)
    silentDevice).2.2.2.2 0 true (initialState InputSource.HDMI) 0 rfl).1

/-! ## Probes and `enableAnalogInput` -/

set_option maxRecDepth 100000 in
/-- C9, as stated, fails: the re-confirm loop leaves after a probe without any
`enableAnalogInput`, and the handshake loop answers an unrecognized value with the
next probe at once. -/
theorem probe_without_enableAnalogInput :
    reconfirmLoop (simulatedDevice 0 0) 1 (initialState InputSource.HDMI) =
      Result.ok () { initialState InputSource.HDMI with
        trace := [Op.mailWrite 0x33 [0xab, 0xa9, 0x0f, 0xa4, 0x55], Op.mailRead 0x33 3] } ∧
    probeDiscipline [Op.mailWrite 0x33 [0xab, 0xa9, 0x0f, 0xa4, 0x55], Op.mailRead 0x33 3] = false ∧
    (handshakeLoop (sampleSession DeviceType.GameCaptureHD) silentDevice 2 true
        (initialState InputSource.HDMI)).state.trace =
      [Op.mailWrite 0x33 [0xab, 0xa9, 0x0f, 0xa4, 0x55], Op.mailRead 0x33 3,
       Op.mailWrite 0x33 [0xab, 0xa9, 0x0f, 0xa4, 0x55], Op.mailRead 0x33 3] ∧
    probeDiscipline [Op.mailWrite 0x33 [0xab, 0xa9, 0x0f, 0xa4, 0x55], Op.mailRead 0x33 3,
       Op.mailWrite 0x33 [0xab, 0xa9, 0x0f, 0xa4, 0x55], Op.mailRead 0x33 3] = false :=
  ⟨rfl, rfl, rfl, rfl⟩

theorem opsOf_append {α : Type} {s s1 : State} {r : Result α} {δ : List Op}
    (h1 : s1.trace = s.trace ++ δ) (h2 : s1.trace <+: r.state.trace) :
    opsOf s r = δ ++ opsOf s1 r := by
  obtain ⟨t, ht⟩ := h2
  unfold opsOf
  rw [← ht, h1]
  simp

theorem opsOf_of_trace {α : Type} {s : State} {r : Result α} {δ : List Op}
    (h : r.state.trace = s.trace ++ δ) : opsOf s r = δ := by
  unfold opsOf
  rw [h]
  simp

theorem activationWait_discipline (dev : Device) (fuel : Nat) (s : State) :
    probeDiscipline (opsOf s (activationWait dev fuel s)) = true := by
  induction fuel generalizing s with
  | zero =>
    have : opsOf s (activationWait dev 0 s) = [] := opsOf_of_trace (by simp [activationWait, Result.state])
    rw [this]
    rfl
  | succ n ih =>
    have t1 : ((afterProbe s 0x5b).log Op.enableAnalogInput).trace =
        s.trace ++ [Op.mailWrite 0x33 (probePayload 0x5b), Op.mailRead 0x33 3,
          Op.enableAnalogInput] := by
      simp [afterProbe, State.log]
    rw [activationWait_succ]
    split
    · rw [opsOf_of_trace (by simpa [Result.state] using t1)]
      rfl
    · rw [opsOf_append t1 (quiet_activationWait dev n _).1]
      have := ih ((afterProbe s 0x5b).log Op.enableAnalogInput)
      simpa [probeDiscipline, probesFollowed, isProbeWrite, probePayload] using this

theorem probesFollowed_commitOps (pending : Bool) (src : InputSource) (mask : Nat)
    (l : List Op) :
    probesFollowed pending (commitOps src mask ++ l) = probesFollowed pending l := by
  unfold commitOps
  split
  · cases detectRule mask <;> simp [probesFollowed, isProbeWrite]
  · rfl

/-- C9 (amended): in the activation-wait loops (lines 200-206 and 587-593) every mode
probe is followed by `enableAnalogInput` before the next probe is issued or the loop
is left, for every value the probe returns and every outcome of the loop; in the
handshake loop a probe answered `0x334455`, or answered `0x27f97b` without the
cable-code error, is followed by `enableAnalogInput` before the pass through the
loop body ends. -/
theorem probe_then_enableAnalogInput (g : Session) (dev : Device) :
    (∀ (fuel : Nat) (s : State),
      probeDiscipline (opsOf s (activationWait dev fuel s)) = true) ∧
    (∀ (firstTime : Bool) (s : State),
      (classifyMode (debyteify (probeBytes dev s 0x55) 3) = DeviceModePhase.Unprogrammed ∨
       classifyMode (debyteify (probeBytes dev s 0x55) 3) = DeviceModePhase.EncoderReady) →
      (handshakeBody g dev firstTime s).isOk = true →
      probeDiscipline (opsOf s (handshakeBody g dev firstTime s)) = true) := by
  refine ⟨activationWait_discipline dev, ?_⟩
  intro firstTime s hc hok
  rw [handshakeBody_eq] at hok ⊢
  rcases hc with hc | hc
  · rw [hc]
    rw [opsOf_of_trace (δ := [Op.mailWrite 0x33 (probePayload 0x55), Op.mailRead 0x33 3,
      Op.sendEnableState, Op.enableAnalogInput,
      Op.doEnable g.consts.EB_FIRMWARE_PROCESSOR g.consts.EB_FIRMWARE_PROCESSOR])
      (by simp [Result.state, afterProbe, State.log])]
    rfl
  · rw [hc] at hok ⊢
    simp only at hok ⊢
    cases firstTime with
    | false =>
      rw [encoderReadyCase_false]
      rw [opsOf_of_trace (δ := [Op.mailWrite 0x33 (probePayload 0x55), Op.mailRead 0x33 3,
        Op.enableAnalogInput]) (by simp [Result.state, afterProbe, State.log])]
      rfl
    | true =>
      rw [encoderReadyCase_true] at hok ⊢
      cases hr : resolveSource (afterProbe s 0x55).inputSource dev.specialDetectMask with
      | none => rw [hr] at hok; simp [Result.isOk] at hok
      | some src =>
        simp only
        rw [opsOf_of_trace (δ := [Op.mailWrite 0x33 (probePayload 0x55), Op.mailRead 0x33 3] ++
          (commitOps (afterProbe s 0x55).inputSource dev.specialDetectMask ++
            [Op.enableAnalogInput, Op.transcoderDefaultsInitialize,
             Op.scmd g.consts.SCMD_INIT 0x00 0x0000, Op.dlfirm g.firmwareEnc_,
             Op.read_config3 0xbc 0x0000 0x0010, Op.read_config3 0xbc 0x0000 0x0012,
             Op.read_config3 0xbc 0x0000 0x0014, Op.read_config3 0xbc 0x0000 0x0016]))
          (by simp [Result.state, afterProbe, State.log])]
        simp only [probeDiscipline, List.cons_append, List.nil_append]
        rw [probesFollowed, if_pos (by rfl), probesFollowed, if_neg (by decide),
          if_neg (by decide), probesFollowed_commitOps]
        rfl

set_option maxRecDepth 100000 in
/-- Witness for the amended C9: the first pass of the handshake loop against the
simulated device, which answers `0x27f97b`. -/
theorem probe_then_enableAnalogInput_witness :
    probeDiscipline (opsOf (initialState InputSource.HDMI)
      (handshakeBody (sampleSession DeviceType.GameCaptureHD) (simulatedDevice 0 0) true
        (initialState InputSource.HDMI))) = true :=
  (probe_then_enableAnalogInput (sampleSession DeviceType.GameCaptureHD)
    (simulatedDevice 0 0)).2 true (initialState InputSource.HDMI) (Or.inr rfl) rfl

/-! ## Calibration replay on the two revisions -/

theorem calibrationReplay_eq (g : Session) (dev : Device) (fuel : Nat) (s : State) :
    calibrationReplay g dev fuel s =
      match ackPoll dev fuel { s with trace := s.trace ++ (calibrationHead ++
          [Op.doEnable g.consts.EB_ENCODER_TRIGGER g.consts.EB_ENCODER_TRIGGER]) } with
      | Result.ok _ s1 =>
        Result.ok () { s1 with trace := s1.trace ++
          ([Op.doEnable g.consts.EB_ENCODER_TRIGGER 0] ++
            calibrationTail g.deviceType_ (decide (s1.inputSource ≠ InputSource.HDMI))) }
      | Result.raised e s1 => Result.raised e s1
      | Result.outOfFuel s1 => Result.outOfFuel s1 := by
  unfold calibrationReplay
  simp only [bind_apply, M.bind, callAll_apply, call_apply, getInputSource_apply, State.log,
    List.append_assoc]
  cases ackPoll dev fuel _ <;> simp

set_option maxRecDepth 100000 in
/-- C10, as stated, fails: the block issued on RevisionB only holds fifteen mailbox
writes to endpoint `0x33` and a mailbox read, sixteen operations, so a RevisionB run
of calibration replay is sixteen operations longer than the RevisionA run. -/
theorem calibrationExtra_sixteen :
    (calibrationExtra DeviceType.GameCaptureHDNew).countP isMailWrite33 = 15 ∧
    (calibrationExtra DeviceType.GameCaptureHDNew).countP isMailRead = 1 ∧
    (opsOf (initialState InputSource.HDMI)
      (calibrationReplay (sampleSession DeviceType.GameCaptureHDNew) (simulatedDevice 0 0) 1
        (initialState InputSource.HDMI))).length =
    (opsOf (initialState InputSource.HDMI)
      (calibrationReplay (sampleSession DeviceType.GameCaptureHD) (simulatedDevice 0 0) 1
        (initialState InputSource.HDMI))).length + 16 :=
  ⟨rfl, rfl, rfl⟩

/-- C10 (amended): for every input source, device and fuel, calibration replay on
RevisionA and on RevisionB have the same outcome kind, and when they return the
RevisionB sequence equals the RevisionA sequence except for exactly two differences:
the endpoint-0x4e write `{24,8d}` is `{24,8c}` on RevisionB, and RevisionB issues
sixteen additional operations on endpoint `0x33` in one block before the write
`{aa,8f,3b}`: fifteen mailbox writes and one 1-byte mailbox read. -/
theorem calibrationReplay_revisions (g : Session) (dev : Device) (fuel : Nat) (s : State) :
    (calibrationHDNew.length = 16 ∧ calibrationHDNew.countP isMailWrite33 = 15 ∧
      calibrationHDNew.countP isMailRead = 1 ∧
      calibrationHDNew.all (fun op => isMailWrite33 op || op = Op.mailRead 0x33 1) = true) ∧
    match calibrationReplay (g.onRevision DeviceType.GameCaptureHD) dev fuel s with
    | Result.ok _ sA =>
      ∃ before : List Op,
        sA.trace = s.trace ++ (before ++ [Op.mailWrite 0x4e [0x24, 0x8d]] ++
          calibrationAfterRevision ++ calibrationDump) ∧
        calibrationReplay (g.onRevision DeviceType.GameCaptureHDNew) dev fuel s =
          Result.ok () { sA with trace := s.trace ++
            (before ++ [Op.mailWrite 0x4e [0x24, 0x8c]] ++
              calibrationAfterRevision ++ calibrationHDNew ++ calibrationDump) }
    | Result.raised e sA =>
      calibrationReplay (g.onRevision DeviceType.GameCaptureHDNew) dev fuel s =
        Result.raised e sA
    | Result.outOfFuel sA =>
      calibrationReplay (g.onRevision DeviceType.GameCaptureHDNew) dev fuel s =
        Result.outOfFuel sA := by
  refine ⟨⟨rfl, rfl, rfl, by decide⟩, ?_⟩
  rw [calibrationReplay_eq, calibrationReplay_eq]
  simp only [Session.onRevision]
  have hq := (quiet_ackPoll dev fuel { s with trace := s.trace ++ (calibrationHead ++
          [Op.doEnable g.consts.EB_ENCODER_TRIGGER g.consts.EB_ENCODER_TRIGGER]) }).1
  cases hp : ackPoll dev fuel { s with trace := s.trace ++ (calibrationHead ++
          [Op.doEnable g.consts.EB_ENCODER_TRIGGER g.consts.EB_ENCODER_TRIGGER]) } with
  | raised e s1 => rfl
  | outOfFuel s1 => rfl
  | ok u s1 =>
    rw [hp] at hq
    obtain ⟨poll, hpoll⟩ := hq
    simp only [Result.state] at hpoll
    refine ⟨calibrationHead ++
      [Op.doEnable g.consts.EB_ENCODER_TRIGGER g.consts.EB_ENCODER_TRIGGER] ++ poll ++
      [Op.doEnable g.consts.EB_ENCODER_TRIGGER 0] ++ calibrationAfterTrigger ++
      calibrationAnalog (decide (s1.inputSource ≠ InputSource.HDMI)) ++ calibrationCommon44,
      ?_, ?_⟩
    · simp only [← hpoll, calibrationTail, calibrationRevision, calibrationExtra,
        List.append_assoc, reduceCtorEq, ↓reduceIte, List.nil_append]
    · simp only [← hpoll, calibrationTail, calibrationRevision, calibrationExtra,
        List.append_assoc, reduceCtorEq, ↓reduceIte, List.nil_append]

/-! ## Calibration replay and the device's answers -/

theorem ackPoll_succ (dev : Device) (fuel : Nat) (s : State) :
    ackPoll dev (fuel + 1) s =
      if dev.byte (s.trace ++ [ackWrite]) 0 % 256 = 0xf7
      then Result.ok () ((s.log ackWrite).log (Op.mailRead 0x33 1))
      else ackPoll dev fuel ((s.log ackWrite).log (Op.mailRead 0x33 1)) := by
  rw [ackPoll]
  simp only [bind_apply, M.bind, mailWrite_apply, mailRead_apply, log_trace, ackWrite]
  have e : List.map (fun i => dev.byte (s.trace ++ [Op.mailWrite 51 [67, 35, 132]]) i % 256)
      (List.range 1) = [dev.byte (s.trace ++ [Op.mailWrite 51 [67, 35, 132]]) 0 % 256] := rfl
  rw [e]
  by_cases h : dev.byte (s.trace ++ [Op.mailWrite 0x33 [0x43, 0x23, 0x84]]) 0 % 256 = 0xf7
  · simp [h]
  · simp [h]

theorem ackPoll_congr (dev dev1 : Device) (fuel : Nat) (s : State)
    (h : ∀ history : List Op,
      dev.byte (history ++ [ackWrite]) 0 % 256 = dev1.byte (history ++ [ackWrite]) 0 % 256) :
    ackPoll dev fuel s = ackPoll dev1 fuel s := by
  induction fuel generalizing s with
  | zero => rfl
  | succ n ih => rw [ackPoll_succ, ackPoll_succ, h, ih]

theorem ackPoll_calm (dev : Device) (fuel : Nat) : Calm (ackPoll dev fuel) := by
  induction fuel with
  | zero => intro s e s1 h; cases h
  | succ n ih =>
    intro s e s1
    rw [ackPoll_succ]
    split
    · intro h; cases h
    · exact ih _ e s1

theorem ackAnswer_zero (dev : Device) (base : List Op) :
    ackAnswer dev base 0 = dev.byte (base ++ [ackWrite]) 0 % 256 := by
  simp [ackAnswer, ackPolls]

theorem ackAnswer_step (dev : Device) (s : State) (k : Nat) :
    ackAnswer dev ((s.log ackWrite).log (Op.mailRead 0x33 1)).trace k =
      ackAnswer dev s.trace (k + 1) := by
  simp [ackAnswer, ackPolls, State.log]

theorem ackPoll_step_state (s : State) (n : Nat) :
    ({ (s.log ackWrite).log (Op.mailRead 0x33 1) with
        trace := ((s.log ackWrite).log (Op.mailRead 0x33 1)).trace ++ ackPolls n } : State) =
      { s with trace := s.trace ++ ackPolls (n + 1) } := by
  simp [ackPolls, State.log]

/-- The poll returns at the first pass whose answer is `0xf7`, if fuel allows. -/
theorem ackPoll_returns (dev : Device) (n : Nat) :
    ∀ (fuel : Nat) (s : State), n < fuel →
      (∀ k, k < n → ackAnswer dev s.trace k ≠ 0xf7) → ackAnswer dev s.trace n = 0xf7 →
      ackPoll dev fuel s = Result.ok () { s with trace := s.trace ++ ackPolls (n + 1) } := by
  induction n with
  | zero =>
    intro fuel s hf _ h0
    obtain ⟨m, rfl⟩ : ∃ m, fuel = m + 1 := ⟨fuel - 1, by omega⟩
    rw [ackPoll_succ, ← ackAnswer_zero, if_pos h0]
    simp [ackPolls, State.log]
  | succ n ih =>
    intro fuel s hf hlt hn
    obtain ⟨m, rfl⟩ : ∃ m, fuel = m + 1 := ⟨fuel - 1, by omega⟩
    have h0 : ackAnswer dev s.trace 0 ≠ 0xf7 := hlt 0 (by omega)
    rw [ackPoll_succ, ← ackAnswer_zero, if_neg h0,
      ih m _ (by omega) (fun k hk => by rw [ackAnswer_step]; exact hlt (k + 1) (by omega))
        (by rw [ackAnswer_step]; exact hn),
      ackPoll_step_state]

/-- The poll uses up its fuel when no pass within it is answered `0xf7`. -/
theorem ackPoll_exhausts (dev : Device) (fuel : Nat) :
    ∀ s : State, (∀ k, k < fuel → ackAnswer dev s.trace k ≠ 0xf7) →
      ackPoll dev fuel s = Result.outOfFuel { s with trace := s.trace ++ ackPolls fuel } := by
  induction fuel with
  | zero =>
    intro s _
    simp [ackPoll, ackPolls]
  | succ m ih =>
    intro s hlt
    have h0 : ackAnswer dev s.trace 0 ≠ 0xf7 := hlt 0 (by omega)
    rw [ackPoll_succ, ← ackAnswer_zero, if_neg h0,
      ih _ (fun k hk => by rw [ackAnswer_step]; exact hlt (k + 1) (by omega)),
      ackPoll_step_state]

/-- A poll that returned did so at the first pass answered `0xf7`. -/
theorem ackPoll_returned (dev : Device) (fuel : Nat) :
    ∀ (s s1 : State), ackPoll dev fuel s = Result.ok () s1 →
      ∃ n, n < fuel ∧ (∀ k, k < n → ackAnswer dev s.trace k ≠ 0xf7) ∧
        ackAnswer dev s.trace n = 0xf7 ∧
        s1 = { s with trace := s.trace ++ ackPolls (n + 1) } := by
  intro s s1 h
  by_cases hex : ∃ n, n < fuel ∧ ackAnswer dev s.trace n = 0xf7
  · classical
    let n := Nat.find hex
    have hn : n < fuel ∧ ackAnswer dev s.trace n = 0xf7 := Nat.find_spec hex
    have hmin : ∀ k, k < n → ackAnswer dev s.trace k ≠ 0xf7 := by
      intro k hk hk7
      exact Nat.find_min hex hk ⟨by omega, hk7⟩
    have hr := ackPoll_returns dev n fuel s hn.1 hmin hn.2
    rw [hr] at h
    simp only [Result.ok.injEq, true_and] at h
    exact ⟨n, hn.1, hmin, hn.2, h.symm⟩
  · have hr := ackPoll_exhausts dev fuel s (fun k hk hk7 => hex ⟨k, hk, hk7⟩)
    rw [hr] at h
    cases h

/-- C11: for a fixed session (device revision) and start state (input source), two
devices that agree on the byte answered to the acknowledgement poll - and may
differ in every other answer: the reads annotated EXPECTED, the 56-byte and 8-byte
dump reads, `readDevice0x9DCD` - make calibration replay (lines 219-586) end in the
same outcome with the same operations in the same order; it never raises. The run
issues the head of the table, sets the trigger bit and polls `{43,23,84}` / 1-byte
read; it returns exactly when some pass within the fuel is answered `0xf7`, at the
first such pass, having then cleared the trigger bit and replayed the table fixed
by the revision and the input source; when no pass within the fuel is answered
`0xf7` it has polled `fuel` times and done nothing else. -/
theorem calibrationReplay_answers (g : Session) (dev dev1 : Device) (fuel : Nat) (s : State)
    (h : ∀ history : List Op,
      dev.byte (history ++ [ackWrite]) 0 % 256 = dev1.byte (history ++ [ackWrite]) 0 % 256) :
    calibrationReplay g dev fuel s = calibrationReplay g dev1 fuel s ∧
    (∀ (e : Error) (s1 : State), calibrationReplay g dev fuel s ≠ Result.raised e s1) ∧
    (∀ n : Nat, n < fuel →
      (∀ k, k < n → ackAnswer dev (s.trace ++ (calibrationHead ++
        [Op.doEnable g.consts.EB_ENCODER_TRIGGER g.consts.EB_ENCODER_TRIGGER])) k ≠ 0xf7) →
      ackAnswer dev (s.trace ++ (calibrationHead ++
        [Op.doEnable g.consts.EB_ENCODER_TRIGGER g.consts.EB_ENCODER_TRIGGER])) n = 0xf7 →
      calibrationReplay g dev fuel s = Result.ok () { s with trace := s.trace ++
        (calibrationHead ++
          [Op.doEnable g.consts.EB_ENCODER_TRIGGER g.consts.EB_ENCODER_TRIGGER] ++
          ackPolls (n + 1) ++ [Op.doEnable g.consts.EB_ENCODER_TRIGGER 0] ++
          calibrationTail g.deviceType_ (decide (s.inputSource ≠ InputSource.HDMI))) }) ∧
    (∀ s1 : State, calibrationReplay g dev fuel s = Result.ok () s1 →
      ∃ n : Nat, n < fuel ∧
        (∀ k, k < n → ackAnswer dev (s.trace ++ (calibrationHead ++
          [Op.doEnable g.consts.EB_ENCODER_TRIGGER g.consts.EB_ENCODER_TRIGGER])) k ≠ 0xf7) ∧
        ackAnswer dev (s.trace ++ (calibrationHead ++
          [Op.doEnable g.consts.EB_ENCODER_TRIGGER g.consts.EB_ENCODER_TRIGGER])) n = 0xf7 ∧
        s1.trace = s.trace ++
          (calibrationHead ++
            [Op.doEnable g.consts.EB_ENCODER_TRIGGER g.consts.EB_ENCODER_TRIGGER] ++
            ackPolls (n + 1) ++ [Op.doEnable g.consts.EB_ENCODER_TRIGGER 0] ++
            calibrationTail g.deviceType_ (decide (s.inputSource ≠ InputSource.HDMI)))) ∧
    ((∀ k, k < fuel → ackAnswer dev (s.trace ++ (calibrationHead ++
        [Op.doEnable g.consts.EB_ENCODER_TRIGGER g.consts.EB_ENCODER_TRIGGER])) k ≠ 0xf7) →
      calibrationReplay g dev fuel s = Result.outOfFuel { s with trace := s.trace ++
        (calibrationHead ++
          [Op.doEnable g.consts.EB_ENCODER_TRIGGER g.consts.EB_ENCODER_TRIGGER] ++
          ackPolls fuel) }) ∧
    (calibrationReplay g dev fuel s =
      match ackPoll dev fuel { s with trace := s.trace ++ (calibrationHead ++
          [Op.doEnable g.consts.EB_ENCODER_TRIGGER g.consts.EB_ENCODER_TRIGGER]) } with
      | Result.ok _ s1 =>
        Result.ok () { s1 with trace := s1.trace ++
          ([Op.doEnable g.consts.EB_ENCODER_TRIGGER 0] ++
            calibrationTail g.deviceType_ (decide (s1.inputSource ≠ InputSource.HDMI))) }
      | Result.raised e s1 => Result.raised e s1
      | Result.outOfFuel s1 => Result.outOfFuel s1) ∧
    (∀ s2 : State, ackPoll dev 0 s2 = Result.outOfFuel s2) ∧
    (∀ (n : Nat) (s2 : State), ackPoll dev (n + 1) s2 =
      if dev.byte (s2.trace ++ [ackWrite]) 0 % 256 = 0xf7
      then Result.ok () ((s2.log ackWrite).log (Op.mailRead 0x33 1))
      else ackPoll dev n ((s2.log ackWrite).log (Op.mailRead 0x33 1))) := by
  have returns : ∀ n : Nat, n < fuel →
      (∀ k, k < n → ackAnswer dev (s.trace ++ (calibrationHead ++
        [Op.doEnable g.consts.EB_ENCODER_TRIGGER g.consts.EB_ENCODER_TRIGGER])) k ≠ 0xf7) →
      ackAnswer dev (s.trace ++ (calibrationHead ++
        [Op.doEnable g.consts.EB_ENCODER_TRIGGER g.consts.EB_ENCODER_TRIGGER])) n = 0xf7 →
      calibrationReplay g dev fuel s = Result.ok () { s with trace := s.trace ++
        (calibrationHead ++
          [Op.doEnable g.consts.EB_ENCODER_TRIGGER g.consts.EB_ENCODER_TRIGGER] ++
          ackPolls (n + 1) ++ [Op.doEnable g.consts.EB_ENCODER_TRIGGER 0] ++
          calibrationTail g.deviceType_ (decide (s.inputSource ≠ InputSource.HDMI))) } := by
    intro n hn hlt h7
    rw [calibrationReplay_eq, ackPoll_returns dev n fuel _ hn hlt h7]
    simp only [List.append_assoc]
  refine ⟨?_, ?_, returns, ?_, ?_, calibrationReplay_eq g dev fuel s, fun s2 => rfl,
    fun n s2 => ackPoll_succ dev n s2⟩
  · rw [calibrationReplay_eq, calibrationReplay_eq, ackPoll_congr dev dev1 _ _ h]
  · intro e s1
    rw [calibrationReplay_eq]
    cases hp : ackPoll dev fuel { s with trace := s.trace ++ (calibrationHead ++
        [Op.doEnable g.consts.EB_ENCODER_TRIGGER g.consts.EB_ENCODER_TRIGGER]) } with
    | ok u s2 => intro hc; cases hc
    | raised e2 s2 => exact absurd hp (ackPoll_calm dev fuel _ e2 s2)
    | outOfFuel s2 => intro hc; cases hc
  · intro s1 hr
    have hr0 := hr
    rw [calibrationReplay_eq] at hr
    cases hp : ackPoll dev fuel { s with trace := s.trace ++ (calibrationHead ++
        [Op.doEnable g.consts.EB_ENCODER_TRIGGER g.consts.EB_ENCODER_TRIGGER]) } with
    | ok u s2 =>
      obtain ⟨n, hn, hlt, h7, _⟩ := ackPoll_returned dev fuel _ s2 hp
      refine ⟨n, hn, hlt, h7, ?_⟩
      have := returns n hn hlt h7
      rw [hr0] at this
      simp only [Result.ok.injEq, true_and] at this
      rw [this]
    | raised e2 s2 => rw [hp] at hr; cases hr
    | outOfFuel s2 => rw [hp] at hr; cases hr
  · intro hlt
    rw [calibrationReplay_eq, ackPoll_exhausts dev fuel _ hlt]
    simp only [List.append_assoc]

set_option maxRecDepth 100000 in
/-- Witness for C11: two devices that acknowledge at the second pass of the poll and
differ in every other answer; with fuel 3 calibration replay returns after two
passes, on both. -/
theorem calibrationReplay_answers_witness :
    calibrationReplay (sampleSession DeviceType.GameCaptureHDNew) (slowAckDevice 0) 3
        (initialState InputSource.Composite) =
      calibrationReplay (sampleSession DeviceType.GameCaptureHDNew) (slowAckDevice 0xa5) 3
        (initialState InputSource.Composite) ∧
    calibrationReplay (sampleSession DeviceType.GameCaptureHDNew) (slowAckDevice 0) 3
        (initialState InputSource.Composite) =
      Result.ok () { initialState InputSource.Composite with
        trace := (initialState InputSource.Composite).trace ++
          (calibrationHead ++
            [Op.doEnable (sampleSession DeviceType.GameCaptureHDNew).consts.EB_ENCODER_TRIGGER
              (sampleSession DeviceType.GameCaptureHDNew).consts.EB_ENCODER_TRIGGER] ++
            ackPolls (1 + 1) ++
            [Op.doEnable (sampleSession DeviceType.GameCaptureHDNew).consts.EB_ENCODER_TRIGGER 0] ++
            calibrationTail (sampleSession DeviceType.GameCaptureHDNew).deviceType_
              (decide ((initialState InputSource.Composite).inputSource ≠ InputSource.HDMI))) } :=
  ⟨(calibrationReplay_answers (sampleSession DeviceType.GameCaptureHDNew) (slowAckDevice 0)
      (slowAckDevice 0xa5) 3 (initialState InputSource.Composite)
      (fun history => by simp [slowAckDevice, ackWrite])).1,
   (calibrationReplay_answers (sampleSession DeviceType.GameCaptureHDNew) (slowAckDevice 0)
      (slowAckDevice 0xa5) 3 (initialState InputSource.Composite)
      (fun history => by simp [slowAckDevice, ackWrite])).2.2.1 1 (by decide)
      (fun k hk => by
        obtain rfl : k = 0 := by omega
        decide)
      (by decide)⟩

/-! ## The boot phase -/

theorem configureDevice_eq_rest (g : Session) (dev : Device) (fuel : Nat) (s : State) :
    configureDevice g dev fuel s =
      (bootState g dev fuel >>= fun state =>
        flashOrReset g dev state >>= fun _ => bringUpRest g dev fuel) (bootEntry g dev s) := by
  unfold configureDevice bringUpRest bootEntry
  simp only [bind_apply, M.bind, call_apply, saveEnableState, read_config_apply, State.log,
    List.append_assoc, List.singleton_append, List.cons_append, List.nil_append]

theorem flashOrReset_eq (g : Session) (dev : Device) (state : Nat) (s : State) :
    (flashOrReset g dev state s).isOk = true ∧
    (flashOrReset g dev state s).state.trace = s.trace ++ flashOrResetOps g state ∧
    (flashOrReset g dev state s).state.inputSource = s.inputSource := by
  unfold flashOrReset flashOrResetOps
  by_cases h : state = 0
  · simp [h, M.bind, saveEnableState, saveEnable, State.log, flashVerificationReads,
      Result.isOk, Result.state]
  · simp [h, M.bind, State.log, Result.isOk, Result.state]

theorem completionPoll_succ (g : Session) (dev : Device) (fuel : Nat) (s : State) :
    completionPoll g dev (fuel + 1) s =
      if (dev.word s.trace % 65536) &&& 0x4 > 0
      then Result.ok () (s.log (Op.read_config g.consts.SCMD_STATE_CHANGE_COMPLETE))
      else completionPoll g dev fuel (s.log (Op.read_config g.consts.SCMD_STATE_CHANGE_COMPLETE)) := by
  rw [completionPoll]
  simp only [bind_apply, M.bind, read_config_apply]
  by_cases h : (dev.word s.trace % 65536) &&& 0x4 > 0
  · simp [h]
  · simp [h]

theorem bootState_HDNew (g : Session) (dev : Device) (fuel : Nat) (s : State)
    (hB : g.deviceType_ = DeviceType.GameCaptureHDNew) :
    bootState g dev fuel s =
      if (dev.word s.trace % 65536) &&& 0x1f = 0 then
        match completionPoll g dev fuel
          ((s.log (Op.read_config g.consts.SCMD_STATE_READBACK_REGISTER)).log Op.interruptPend) with
        | Result.ok _ s1 =>
          Result.ok 0 (s1.log (Op.write_config g.consts.SCMD_STATE_CHANGE_COMPLETE 0x0004))
        | Result.raised e s1 => Result.raised e s1
        | Result.outOfFuel s1 => Result.outOfFuel s1
      else
        Result.ok ((dev.word s.trace % 65536) &&& 0x1f)
          (s.log (Op.read_config g.consts.SCMD_STATE_READBACK_REGISTER)) := by
  unfold bootState
  rw [hB]
  simp only [bind_apply, M.bind, read_config_apply]
  by_cases h : (dev.word s.trace % 65536) &&& 0x1f = 0
  · simp only [h, ↓reduceIte, bind_apply, M.bind, call_apply, pure_apply]
    cases completionPoll g dev fuel _ <;> rfl
  · simp [h, M.bind]

theorem Quiet.grows {α : Type} {f : M α} (h : Quiet f) : Grows f := fun s => (h s).1

theorem grows_bind {α β : Type} {x : M α} {f : α → M β} (hx : Grows x)
    (hf : ∀ a, Grows (f a)) : Grows (x >>= f) := by
  intro s
  have h := hx s
  simp only [bind_apply, M.bind]
  cases hxs : x s with
  | ok a s1 => rw [hxs] at h; exact h.trans (hf a s1)
  | raised e s1 => rw [hxs] at h; exact h
  | outOfFuel s1 => rw [hxs] at h; exact h

theorem grows_finalDispatch : Grows finalDispatch :=
  fun s => (finalDispatch_summary s).1.1

theorem grows_bringUpRest (g : Session) (dev : Device) (fuel : Nat) :
    Grows (bringUpRest g dev fuel) := by
  unfold bringUpRest
  exact grows_bind (quiet_mailWrite _ _).grows (fun _ =>
    grows_bind (quiet_mailRead _ _ _).grows (fun _ =>
    grows_bind (fun s => handshakeLoop_extends g dev fuel true s) (fun _ =>
    grows_bind (quiet_activationWait _ _).grows (fun _ =>
    grows_bind (@quiet_call (Op.doEnable g.consts.EB_ENCODER_ENABLE
      g.consts.EB_ENCODER_ENABLE) rfl).grows (fun _ =>
    grows_bind (quiet_reconfirmLoop _ _).grows (fun _ =>
    grows_bind (quiet_calibrationReplay _ _ _).grows (fun _ =>
    grows_bind (quiet_activationWait _ _).grows (fun _ =>
    grows_bind (quiet_postActivation _).grows (fun _ => grows_finalDispatch)))))))))

theorem configureDevice_after_boot (g : Session) (dev : Device) (fuel : Nat) (s : State) :
    configureDevice g dev fuel s =
      match bootState g dev fuel (bootEntry g dev s) with
      | Result.ok state s1 => bringUpRest g dev fuel (flashOrReset g dev state s1).state
      | Result.raised e s1 => Result.raised e s1
      | Result.outOfFuel s1 => Result.outOfFuel s1 := by
  rw [configureDevice_eq_rest]
  simp only [bind_apply, M.bind]
  cases hb : bootState g dev fuel (bootEntry g dev s) with
  | ok state s1 =>
    simp only
    have hok := (flashOrReset_eq g dev state s1).1
    cases hf : flashOrReset g dev state s1 with
    | ok u s2 => rfl
    | raised e s2 => rw [hf] at hok; cases hok
    | outOfFuel s2 => rw [hf] at hok; cases hok
  | raised e s1 => rfl
  | outOfFuel s1 => rfl

/-- C12: in every run of `configureDevice` the boot state is determined right after
`readVersion`, the bank select and the enable-state snapshot; if it is 0 the idle
firmware is loaded by `dlfirm`, followed in order by the write
`(0xbc, 0x0900, 0x0070, 0x0004)`, the re-snapshot of both enable registers and eight
2-byte reads at offsets `0x10, 0x12, ..., 0x1e`, with no SCMD reset; otherwise
`stateConfirmedScmd(SCMD_RESET, 0, 0)` is issued and no `dlfirm`; in both cases the
next operation is `stateConfirmedScmd(SCMD_IDLE, 0, 0)`, and these operations are
part of the run. On RevisionA the state is the answer of `completeStateChange(0, 0)`.
On RevisionB it is the register value masked to five bits, and `interruptPend`, the
poll of the completion register until bit 2 is set and the write of `0x0004` happen
if and only if the masked state is zero. -/
theorem bootPhase_operations (g : Session) (dev : Device) :
    (∀ (state : Nat) (s : State),
      (flashOrReset g dev state s).isOk = true ∧
      (flashOrReset g dev state s).state.trace = s.trace ++
        ((if state = 0 then
            [Op.dlfirm g.firmwareIdle_, Op.write_config4 0xbc 0x0900 0x0070 0x0004,
             Op.read_config g.consts.MAIL_SEND_ENABLE_REGISTER_STATE,
             Op.read_config g.consts.ENABLE_REGISTER,
             Op.read_configN 0xbc 0 0x10 2, Op.read_configN 0xbc 0 0x12 2,
             Op.read_configN 0xbc 0 0x14 2, Op.read_configN 0xbc 0 0x16 2,
             Op.read_configN 0xbc 0 0x18 2, Op.read_configN 0xbc 0 0x1a 2,
             Op.read_configN 0xbc 0 0x1c 2, Op.read_configN 0xbc 0 0x1e 2]
          else [Op.stateConfirmedScmd g.consts.SCMD_RESET 0 0]) ++
          [Op.stateConfirmedScmd g.consts.SCMD_IDLE 0 0])) ∧
    (∀ (fuel : Nat) (s : State) (state : Nat) (s1 : State),
      bootState g dev fuel (bootEntry g dev s) = Result.ok state s1 →
      state = bootValue g dev s ∧
      configureDevice g dev fuel s =
        bringUpRest g dev fuel (flashOrReset g dev state s1).state ∧
      (flashOrReset g dev state s1).state.trace <+:
        (configureDevice g dev fuel s).state.trace) ∧
    (g.deviceType_ = DeviceType.GameCaptureHD → ∀ (fuel : Nat) (s : State),
      bootState g dev fuel s =
        Result.ok (dev.word s.trace % 65536) (s.log (Op.completeStateChange 0 0))) ∧
    (g.deviceType_ = DeviceType.GameCaptureHDNew → ∀ (fuel : Nat) (s : State),
      bootState g dev fuel s =
        if (dev.word s.trace % 65536) &&& 0x1f = 0 then
          match completionPoll g dev fuel
            ((s.log (Op.read_config g.consts.SCMD_STATE_READBACK_REGISTER)).log
              Op.interruptPend) with
          | Result.ok _ s1 =>
            Result.ok 0 (s1.log (Op.write_config g.consts.SCMD_STATE_CHANGE_COMPLETE 0x0004))
          | Result.raised e s1 => Result.raised e s1
          | Result.outOfFuel s1 => Result.outOfFuel s1
        else
          Result.ok ((dev.word s.trace % 65536) &&& 0x1f)
            (s.log (Op.read_config g.consts.SCMD_STATE_READBACK_REGISTER))) ∧
    (∀ (fuel : Nat) (s : State), completionPoll g dev (fuel + 1) s =
      if (dev.word s.trace % 65536) &&& 0x4 > 0
      then Result.ok () (s.log (Op.read_config g.consts.SCMD_STATE_CHANGE_COMPLETE))
      else completionPoll g dev fuel
        (s.log (Op.read_config g.consts.SCMD_STATE_CHANGE_COMPLETE))) := by
  refine ⟨?_, ?_, ?_, fun hB fuel s => bootState_HDNew g dev fuel s hB,
    completionPoll_succ g dev⟩
  · intro state s
    have h := flashOrReset_eq g dev state s
    exact ⟨h.1, by rw [h.2.1]; rfl⟩
  · intro fuel s state s1 hb
    have hv : state = bootValue g dev s := by
      rw [bootState_value g dev fuel _ _ _ hb]
      simp [bootValue, bootEntry]
    have hc : configureDevice g dev fuel s =
        bringUpRest g dev fuel (flashOrReset g dev state s1).state := by
      rw [configureDevice_after_boot, hb]
    refine ⟨hv, hc, ?_⟩
    rw [hc]
    exact grows_bringUpRest g dev fuel _
  · intro hA fuel s
    unfold bootState
    rw [hA]
    rfl

/-- Witness for C12: on RevisionA the boot state is the answer of
`completeStateChange(0, 0)`. -/
theorem bootPhase_operations_witness :
    bootState (sampleSession DeviceType.GameCaptureHD) (simulatedDevice 0 0) 1
        (initialState InputSource.HDMI) =
      Result.ok ((simulatedDevice 0 0).word (initialState InputSource.HDMI).trace % 65536)
        ((initialState InputSource.HDMI).log (Op.completeStateChange 0 0)) :=
  (bootPhase_operations (sampleSession DeviceType.GameCaptureHD) (simulatedDevice 0 0)).2.2.1
    rfl 1 (initialState InputSource.HDMI)

/-! ## Computations that never throw -/

theorem calm_bind {α β : Type} {x : M α} {f : α → M β} (hx : Calm x)
    (hf : ∀ a, Calm (f a)) : Calm (x >>= f) := by
  intro s e s1
  simp only [bind_apply, M.bind]
  cases hxs : x s with
  | ok a s2 => exact hf a s2 e s1
  | raised e2 s2 => exact absurd hxs (hx s e2 s2)
  | outOfFuel s2 => intro h; cases h

theorem calm_pure {α : Type} (a : α) : Calm (pure a : M α) := by
  intro s e s1 h; cases h

theorem calm_giveUp {α : Type} : Calm (giveUp : M α) := by
  intro s e s1 h; cases h

theorem calm_getInputSource : Calm getInputSource := by
  intro s e s1 h; cases h

theorem calm_call (op : Op) : Calm (call op) := by
  intro s e s1 h; cases h

theorem calm_callAll (ops : List Op) : Calm (callAll ops) := by
  intro s e s1 h; cases h

theorem calm_mailWrite (port : Nat) (payload : List Nat) : Calm (mailWrite port payload) := by
  intro s e s1 h; cases h

theorem calm_mailRead (dev : Device) (port length : Nat) : Calm (mailRead dev port length) := by
  intro s e s1 h; cases h

theorem calm_read_config (dev : Device) (reg : Nat) : Calm (read_config dev reg) := by
  intro s e s1 h; cases h

theorem calm_completeStateChange (dev : Device) (a b : Nat) :
    Calm (completeStateChange dev a b) := by
  intro s e s1 h; cases h

theorem calm_ite {α : Type} {c : Prop} [Decidable c] {x y : M α} (hx : Calm x) (hy : Calm y) :
    Calm (if c then x else y) := by
  split <;> assumption

theorem calm_completionPoll (g : Session) (dev : Device) (fuel : Nat) :
    Calm (completionPoll g dev fuel) := by
  induction fuel with
  | zero => exact calm_giveUp
  | succ n ih =>
    rw [completionPoll]
    exact calm_bind (calm_read_config _ _) (fun _ => calm_ite ih (calm_pure _))

theorem calm_bootState (g : Session) (dev : Device) (fuel : Nat) :
    Calm (bootState g dev fuel) := by
  unfold bootState
  cases g.deviceType_ with
  | GameCaptureHD => exact calm_completeStateChange _ _ _
  | GameCaptureHDNew =>
    refine calm_bind (calm_read_config _ _) (fun _ => ?_)
    exact calm_ite
      (calm_bind (calm_call _) (fun _ => calm_bind (calm_completionPoll _ _ _)
        (fun _ => calm_bind (calm_call _) (fun _ => calm_pure _))))
      (calm_bind (calm_pure _) (fun _ => calm_pure _))

theorem calm_activationWait (dev : Device) (fuel : Nat) : Calm (activationWait dev fuel) := by
  induction fuel with
  | zero => exact calm_giveUp
  | succ n ih =>
    rw [activationWait]
    exact calm_bind (calm_mailWrite _ _) (fun _ => calm_bind (calm_mailRead _ _ _)
      (fun _ => calm_bind (calm_call _) (fun _ => calm_ite ih (calm_pure _))))

theorem calm_reconfirmLoop (dev : Device) (fuel : Nat) : Calm (reconfirmLoop dev fuel) := by
  induction fuel with
  | zero => exact calm_giveUp
  | succ n ih =>
    rw [reconfirmLoop]
    exact calm_bind (calm_mailWrite _ _) (fun _ => calm_bind (calm_mailRead _ _ _)
      (fun _ => calm_ite ih (calm_pure _)))

theorem calm_calibrationReplay (g : Session) (dev : Device) (fuel : Nat) :
    Calm (calibrationReplay g dev fuel) := by
  unfold calibrationReplay
  exact calm_bind (calm_callAll _) (fun _ => calm_bind (calm_call _)
    (fun _ => calm_bind (ackPoll_calm _ _) (fun _ => calm_bind (calm_call _)
      (fun _ => calm_bind calm_getInputSource (fun _ => calm_callAll _)))))

theorem calm_postActivation (g : Session) : Calm (postActivation g) := by
  unfold postActivation
  exact calm_bind (calm_call _) (fun _ => calm_bind (calm_call _)
    (fun _ => calm_bind calm_getInputSource (fun _ => calm_bind calm_getInputSource
      (fun _ => calm_bind (calm_call _) (fun _ => calm_bind (calm_callAll _)
        (fun _ => calm_bind (calm_callAll _) (fun _ => calm_bind (calm_call _)
          (fun _ => calm_bind (calm_call _) (fun _ => calm_call _)))))))))

/-! ## The input source at the final dispatch -/

theorem detectRule_ne_unknown (mask : Nat) (x : InputSource) (h : detectRule mask = some x) :
    x = InputSource.HDMI ∨ x = InputSource.Component ∨ x = InputSource.Composite := by
  unfold detectRule at h
  simp only at h
  split_ifs at h <;> simp only [Option.some.injEq, reduceCtorEq] at h <;> subst h <;> simp

theorem resolveSource_ne_unknown (src : InputSource) (mask : Nat) (x : InputSource)
    (h : resolveSource src mask = some x) : x ≠ InputSource.Unknown := by
  unfold resolveSource at h
  split at h
  · rcases detectRule_ne_unknown mask x h with e | e | e <;> rw [e] <;> decide
  · simp only [Option.some.injEq] at h
    rw [← h]
    assumption

theorem handshakeLoop_raises (g : Session) (dev : Device) (fuel : Nat) (firstTime : Bool)
    (s s1 : State) (e : Error) (h : handshakeLoop g dev fuel firstTime s = Result.raised e s1) :
    e = Error.badCableDetectionCode := by
  induction fuel generalizing s firstTime with
  | zero => cases h
  | succ n ih =>
    rw [handshakeLoop_succ, handshakeBody_eq] at h
    cases hc : classifyMode (debyteify (probeBytes dev s 0x55) 3) with
    | EncoderReady =>
      rw [hc] at h
      cases firstTime with
      | false => simp [encoderReadyCase_false] at h
      | true =>
        simp only [encoderReadyCase_true] at h
        cases hr : resolveSource (afterProbe s 0x55).inputSource dev.specialDetectMask with
        | none =>
          rw [hr] at h
          simp only [Result.raised.injEq] at h
          exact h.1.symm
        | some src =>
          rw [hr] at h
          simp only [Bool.false_eq_true, ↓reduceIte] at h
          exact ih _ _ h
    | Unprogrammed =>
      rw [hc] at h
      simp only [Bool.false_eq_true, ↓reduceIte] at h
      exact ih _ _ h
    | ProcessorEnabled =>
      rw [hc] at h
      simp only [Bool.false_eq_true, ↓reduceIte] at h
      exact ih _ _ h
    | EncoderActive =>
      rw [hc] at h
      simp only [Bool.false_eq_true, ↓reduceIte] at h
      exact ih _ _ h
    | Unrecognized code =>
      rw [hc] at h
      simp only [Bool.false_eq_true, ↓reduceIte] at h
      exact ih _ _ h

theorem dispatchResolved_bind {α : Type} {x : M α} {f : α → M Unit} {s : State}
    (hx : ∀ s1, x s ≠ Result.raised Error.unknownInputSource s1)
    (hf : ∀ a s1, x s = Result.ok a s1 → DispatchResolved (f a s1)) :
    DispatchResolved ((x >>= f) s) := by
  simp only [bind_apply, M.bind]
  cases hxs : x s with
  | ok a s1 => exact hf a s1 hxs
  | raised e s1 =>
    rintro (h | ⟨s2, h⟩)
    · cases h
    · simp only [Result.raised.injEq] at h
      rw [h.1, h.2] at hxs
      exact absurd hxs (hx s2)
  | outOfFuel s1 =>
    rintro (h | ⟨s2, h⟩)
    · cases h
    · cases h

theorem dispatchResolved_calm_bind {α : Type} {x : M α} {f : α → M Unit} {s : State}
    (hc : Calm x) (hq : Quiet x) (hs : s.inputSource ≠ InputSource.Unknown)
    (hf : ∀ a s1, s1.inputSource ≠ InputSource.Unknown → DispatchResolved (f a s1)) :
    DispatchResolved ((x >>= f) s) :=
  dispatchResolved_bind (fun s1 => hc s _ s1)
    (fun a s1 h => hf a s1 (by rw [hq.inputSource_eq h]; exact hs))

theorem bringUpRest_resolved (g : Session) (dev : Device) (fuel : Nat) (s : State) :
    DispatchResolved (bringUpRest g dev fuel s) := by
  unfold bringUpRest
  refine dispatchResolved_bind (fun s1 => calm_mailWrite _ _ s _ s1) (fun _ s1 _ => ?_)
  refine dispatchResolved_bind (fun s2 => calm_mailRead _ _ _ s1 _ s2) (fun _ s2 _ => ?_)
  refine dispatchResolved_bind ?_ (fun _ s3 h3 => ?_)
  · intro s3 h
    have := handshakeLoop_raises g dev fuel true s2 s3 _ h
    cases this
  have hs3 : s3.inputSource ≠ InputSource.Unknown :=
    resolveSource_ne_unknown _ _ _ ((handshakeLoop_true g dev fuel s2).2 _ s3 h3)
  refine dispatchResolved_calm_bind (calm_activationWait _ _) (quiet_activationWait _ _) hs3
    (fun _ s4 hs4 => ?_)
  refine dispatchResolved_calm_bind (calm_call _) (quiet_call rfl) hs4 (fun _ s5 hs5 => ?_)
  refine dispatchResolved_calm_bind (calm_reconfirmLoop _ _) (quiet_reconfirmLoop _ _) hs5
    (fun _ s6 hs6 => ?_)
  refine dispatchResolved_calm_bind (calm_calibrationReplay _ _ _)
    (quiet_calibrationReplay _ _ _) hs6 (fun _ s7 hs7 => ?_)
  refine dispatchResolved_calm_bind (calm_activationWait _ _) (quiet_activationWait _ _) hs7
    (fun _ s8 hs8 => ?_)
  refine dispatchResolved_calm_bind (calm_postActivation _) (quiet_postActivation _) hs8
    (fun _ s9 hs9 => ?_)
  exact fun _ => ⟨s9, rfl, hs9⟩

theorem configureDevice_resolved (g : Session) (dev : Device) (fuel : Nat) (s : State) :
    DispatchResolved (configureDevice g dev fuel s) := by
  rw [configureDevice_after_boot]
  cases hb : bootState g dev fuel (bootEntry g dev s) with
  | ok state s1 => exact bringUpRest_resolved g dev fuel _
  | raised e s1 => exact absurd hb (calm_bootState g dev fuel _ e s1)
  | outOfFuel s1 =>
    rintro (h | ⟨s2, h⟩)
    · cases h
    · cases h

theorem handshakeBody_done (g : Session) (dev : Device) (firstTime : Bool) (s s1 : State)
    (a : Bool × Bool) (h : handshakeBody g dev firstTime s = Result.ok a s1)
    (hd : a.2 = true) :
    firstTime = false ∧
    classifyMode (debyteify (probeBytes dev s 0x55) 3) = DeviceModePhase.EncoderReady := by
  rw [handshakeBody_eq] at h
  cases hc : classifyMode (debyteify (probeBytes dev s 0x55) 3) with
  | EncoderReady =>
    rw [hc] at h
    cases firstTime with
    | false => exact ⟨rfl, rfl⟩
    | true =>
      simp only [encoderReadyCase_true] at h
      cases hr : resolveSource (afterProbe s 0x55).inputSource dev.specialDetectMask with
      | none => rw [hr] at h; cases h
      | some src =>
        rw [hr] at h
        simp only [Result.ok.injEq] at h
        rw [← h.1] at hd
        cases hd
  | Unprogrammed =>
    rw [hc] at h; simp only [Result.ok.injEq] at h; rw [← h.1] at hd; cases hd
  | ProcessorEnabled =>
    rw [hc] at h; simp only [Result.ok.injEq] at h; rw [← h.1] at hd; cases hd
  | EncoderActive =>
    rw [hc] at h; simp only [Result.ok.injEq] at h; rw [← h.1] at hd; cases hd
  | Unrecognized code =>
    rw [hc] at h; simp only [Result.ok.injEq] at h; rw [← h.1] at hd; cases hd

theorem encoderReadyCase_unknown (g : Session) (dev : Device) (s : State)
    (hu : s.inputSource = InputSource.Unknown) :
    encoderReadyCase g dev true s = Result.raised Error.badCableDetectionCode s ∨
    ∃ s1, encoderReadyCase g dev true s = Result.ok (false, false) s1 ∧
      (s1.inputSource = InputSource.HDMI ∨ s1.inputSource = InputSource.Component ∨
        s1.inputSource = InputSource.Composite) := by
  rw [encoderReadyCase_true]
  cases hr : resolveSource s.inputSource dev.specialDetectMask with
  | none => exact Or.inl rfl
  | some src =>
    refine Or.inr ⟨_, rfl, ?_⟩
    simp only [resolveSource, hu, ↓reduceIte] at hr
    exact detectRule_ne_unknown _ _ hr

/-- C13: with collaborators that do not write the session's input source, every run
of `configureDevice` whose outcome comes from the final switch (a normal return or
the "unknown input source" error) entered `finalDispatch` with an input source other
than Unknown; the error is then raised for Component or Composite only. The
handshake loop is left only by a pass that observes `0x27f97b` with `firstTime`
already cleared; on the first observation an Unknown source is resolved to HDMI,
Component or Composite or the run is aborted by the cable-code error; so a normal
exit of the loop leaves a source other than Unknown. -/
theorem unknown_case_unreachable (g : Session) (dev : Device) :
    (∀ (fuel : Nat) (s : State),
      ((configureDevice g dev fuel s).isOk = true ∨
        ∃ s1, configureDevice g dev fuel s = Result.raised Error.unknownInputSource s1) →
      ∃ s9 : State, configureDevice g dev fuel s = finalDispatch s9 ∧
        s9.inputSource ≠ InputSource.Unknown) ∧
    (∀ (fuel : Nat) (s s1 : State),
      configureDevice g dev fuel s = Result.raised Error.unknownInputSource s1 →
      s1.inputSource = InputSource.Component ∨ s1.inputSource = InputSource.Composite) ∧
    (∀ (firstTime : Bool) (s s1 : State) (a : Bool × Bool),
      handshakeBody g dev firstTime s = Result.ok a s1 → a.2 = true →
      firstTime = false ∧
      classifyMode (debyteify (probeBytes dev s 0x55) 3) = DeviceModePhase.EncoderReady) ∧
    (∀ s : State, s.inputSource = InputSource.Unknown →
      encoderReadyCase g dev true s = Result.raised Error.badCableDetectionCode s ∨
      ∃ s1, encoderReadyCase g dev true s = Result.ok (false, false) s1 ∧
        (s1.inputSource = InputSource.HDMI ∨ s1.inputSource = InputSource.Component ∨
          s1.inputSource = InputSource.Composite)) ∧
    (∀ (fuel : Nat) (s s1 : State), handshakeLoop g dev fuel true s = Result.ok () s1 →
      s1.inputSource ≠ InputSource.Unknown) := by
  refine ⟨fun fuel s => configureDevice_resolved g dev fuel s, ?_, handshakeBody_done g dev,
    encoderReadyCase_unknown g dev, ?_⟩
  · intro fuel s s1 h
    obtain ⟨s9, h9, hn⟩ := configureDevice_resolved g dev fuel s (Or.inr ⟨s1, h⟩)
    rw [h] at h9
    cases hs : s9.inputSource with
    | Unknown => exact absurd hs hn
    | HDMI =>
      simp [finalDispatch, M.bind, hs] at h9
    | Component =>
      simp [finalDispatch, M.bind, hs] at h9
      rw [h9]; exact Or.inl hs
    | Composite =>
      simp [finalDispatch, M.bind, hs] at h9
      rw [h9]; exact Or.inr hs
  · intro fuel s s1 h
    exact resolveSource_ne_unknown _ _ _ ((handshakeLoop_true g dev fuel s).2 _ s1 h)

set_option maxRecDepth 100000 in
/-- Witness for C13: a run that returns, from the source Unknown. -/
theorem unknown_case_unreachable_witness :
    ∃ s9 : State,
      configureDevice (sampleSession DeviceType.GameCaptureHD) (simulatedDevice 0 0) 2
        (initialState InputSource.Unknown) = finalDispatch s9 ∧
      s9.inputSource ≠ InputSource.Unknown :=
  (unknown_case_unreachable (sampleSession DeviceType.GameCaptureHD) (simulatedDevice 0 0)).1 2
    (initialState InputSource.Unknown) (Or.inl rfl)

end GCHD
